import Mathlib

set_option maxHeartbeats 1000000

/-!
Verification development for the SSVM module-instantiation pipeline.

The definitions below embed, in order:
  * the AST type nodes of `src/include/common/ast/type.h`
    (`Limit`, `FunctionType`, `MemoryType`, `TableType`, `GlobalType`);
  * the descriptor nodes of `src/include/common/ast/description.h`
    (`ImportDesc` with its `variant<unique_ptr<...>>` content and the
    `getExternalContent<T>` accessors, and `ExportDesc`);
  * the runtime store, stack, module-instance and the sub-steps of
    instantiation, which live outside the provided sources and are
    modelled from the specification (each such definition carries a
    `Modelled from the spec:` doc comment);
  * `Interpreter.instantiate` of
    `src/lib/interpreter/instantiate/module.cpp`, embedded line by line.
-/

namespace SSVM

/-- Value-type enumeration (`I32, I64, F32, F64`). Floating-point values are
carried as uninterpreted bit patterns; instantiation never computes on them. -/
inductive ValType
  | I32
  | I64
  | F32
  | F64
  deriving DecidableEq

/-- Mutability flag of a global (`Const` / `Var`). -/
inductive ValMut
  | Const
  | Var
  deriving DecidableEq

/-- Element-type enumeration, a single variant. -/
inductive ElemType
  | FuncRef
  deriving DecidableEq

/-- External-entity kind used by imports and exports. -/
inductive ExternalType
  | Func
  | Table
  | Mem
  | Global
  deriving DecidableEq

/-- `Limit::LimitType` from `src/include/common/ast/type.h`. -/
inductive LimitType
  | HasMin
  | HasMinMax
  deriving DecidableEq

/-- AST `Limit` node of `src/include/common/ast/type.h`: a tag plus the two
`uint32_t` fields `Min` and `Max`. -/
structure Limit where
  type : LimitType
  min : Nat
  max : Nat
  deriving DecidableEq

/-- The one-argument C++ constructor `Limit(MinVal)`. It sets
`Type = HasMin` and `Min = MinVal` and leaves the field `Max`
uninitialized; the indeterminate residue left in `Max` is made explicit
as the extra argument `Residue`. -/
def Limit.ofMin (MinVal Residue : Nat) : Limit :=
  { type := LimitType.HasMin, min := MinVal, max := Residue }

/-- The two-argument C++ constructor `Limit(MinVal, MaxVal)`:
`Type = HasMinMax`, `Min = MinVal`, `Max = MaxVal`. No relation between
the two arguments is checked. -/
def Limit.ofMinMax (MinVal MaxVal : Nat) : Limit :=
  { type := LimitType.HasMinMax, min := MinVal, max := MaxVal }

/-- `Limit::hasMax`: whether the tag is `HasMinMax`. -/
def Limit.hasMax (l : Limit) : Bool :=
  l.type = LimitType.HasMinMax

/-- `Limit::getMin`. -/
def Limit.getMin (l : Limit) : Nat := l.min

/-- `Limit::getMax`. It unconditionally returns the `Max` field, also on a
limit whose tag is `HasMin` (where C++ reads the uninitialized residue). -/
def Limit.getMax (l : Limit) : Nat := l.max

/-- AST `FunctionType` node: parameter and return value-type lists. -/
structure FunctionType where
  paramTypes : List ValType
  returnTypes : List ValType
  deriving DecidableEq

/-- AST `MemoryType` node: wraps a single `Limit` (64 KiB pages). The
compiled-symbol slot is irrelevant to instantiation and omitted. -/
structure MemoryType where
  limit : Limit
  deriving DecidableEq

/-- AST `TableType` node: element type plus a `Limit`. -/
structure TableType where
  elemType : ElemType
  limit : Limit
  deriving DecidableEq

/-- AST `GlobalType` node: value type plus mutability. -/
structure GlobalType where
  valType : ValType
  mutability : ValMut
  deriving DecidableEq

/-- Error taxonomy of the core (spec section 7). -/
inductive ErrCode
  | ModuleNameConflict
  | UnknownImport
  | IncompatibleImportType
  | InvalidInitializer
  | TableOutOfRange
  | MemoryOutOfRange
  | DuplicateExportName
  | BadAddress
  | StartTrap
  deriving DecidableEq

/-- Runtime value: a typed scalar. Floats are uninterpreted bit patterns. -/
inductive Value
  | I32 (n : Nat)
  | I64 (n : Nat)
  | F32 (bits : Nat)
  | F64 (bits : Nat)
  deriving DecidableEq

/-- One instruction of the restricted initializer dialect (spec section 4.3):
the four constants and `global.get`; every other opcode is represented by
`other` and is rejected by the constant-expression evaluator. -/
inductive Instr
  | i32const (n : Nat)
  | i64const (n : Nat)
  | f32const (bits : Nat)
  | f64const (bits : Nat)
  | globalGet (idx : Nat)
  | other (op : Nat)
  deriving DecidableEq

/-- An expression is an instruction sequence. -/
abbrev Expr := List Instr

/-- The four alternatives of `ImportDesc::ExtContentType`, the
`std::variant<unique_ptr<uint32_t>, unique_ptr<TableType>,
unique_ptr<MemoryType>, unique_ptr<GlobalType>>` of
`src/include/common/ast/description.h`. The pointee is stored directly;
`loadBinary` always populates the active pointer. -/
inductive ExtContent
  | funcTypeIdx (v : Nat)
  | tableType (v : TableType)
  | memoryType (v : MemoryType)
  | globalType (v : GlobalType)
  deriving DecidableEq

/-- `ImportDesc` of `src/include/common/ast/description.h`: external kind
(from the `Desc` base), module name, external name, and the content
variant. -/
structure ImportDesc where
  extType : ExternalType
  modName : String
  extName : String
  extContent : ExtContent
  deriving DecidableEq

/-- `ImportDesc::getExternalContent<uint32_t>`: the payload if the variant
holds the `unique_ptr<uint32_t>` alternative, otherwise
`IncompatibleImportType`. -/
def ImportDesc.getExternalContentU32 (d : ImportDesc) : Except ErrCode Nat :=
  match d.extContent with
  | ExtContent.funcTypeIdx v => Except.ok v
  | _ => Except.error ErrCode.IncompatibleImportType

/-- `ImportDesc::getExternalContent<TableType>`. -/
def ImportDesc.getExternalContentTable (d : ImportDesc) : Except ErrCode TableType :=
  match d.extContent with
  | ExtContent.tableType v => Except.ok v
  | _ => Except.error ErrCode.IncompatibleImportType

/-- `ImportDesc::getExternalContent<MemoryType>`. -/
def ImportDesc.getExternalContentMemory (d : ImportDesc) : Except ErrCode MemoryType :=
  match d.extContent with
  | ExtContent.memoryType v => Except.ok v
  | _ => Except.error ErrCode.IncompatibleImportType

/-- `ImportDesc::getExternalContent<GlobalType>`. -/
def ImportDesc.getExternalContentGlobal (d : ImportDesc) : Except ErrCode GlobalType :=
  match d.extContent with
  | ExtContent.globalType v => Except.ok v
  | _ => Except.error ErrCode.IncompatibleImportType

/-- `ExportDesc` of `src/include/common/ast/description.h`: external kind,
export name, index into the instance space of that kind. The opaque
compiled-symbol slot is omitted. -/
structure ExportDesc where
  extType : ExternalType
  extName : String
  extIdx : Nat
  deriving DecidableEq

/-- A global segment: declared type plus initializer expression. -/
structure GlobalSegment where
  globalType : GlobalType
  expr : Expr
  deriving DecidableEq

/-- An element segment: target table index, offset expression, function
indices to write. -/
structure ElemSegment where
  tableIdx : Nat
  offsetExpr : Expr
  funcIdxs : List Nat
  deriving DecidableEq

/-- A data segment: target memory index, offset expression, bytes. -/
structure DataSegment where
  memIdx : Nat
  offsetExpr : Expr
  bytes : List Nat
  deriving DecidableEq

/-- The AST module: a bag of optional sections, read through the accessors
listed in spec section 6. `hasCtor` stands for `getCtor` returning a
non-null compiled-module constructor pointer. -/
structure Module where
  typeSec : Option (List FunctionType) := none
  importSec : Option (List ImportDesc) := none
  funcSec : Option (List Nat) := none
  codeSec : Option (List Expr) := none
  globalSec : Option (List GlobalSegment) := none
  tableSec : Option (List TableType) := none
  memSec : Option (List MemoryType) := none
  elemSec : Option (List ElemSegment) := none
  dataSec : Option (List DataSegment) := none
  exportSec : Option (List ExportDesc) := none
  startSec : Option Nat := none
  hasCtor : Bool := false
  deriving DecidableEq

/-- Association lookup by name, used for the Store's name buckets and the
instances' export maps. -/
def lookupName {α : Type} : List (String × α) → String → Option α
  | [], _ => none
  | (k, v) :: rest, n => if k = n then some v else lookupName rest n

/-- Modelled from the spec: a function instance held by the Store, bound to
`(type_index, module_addr, body)` (spec section 4.5 step 6). -/
structure FunctionInstance where
  modAddr : Nat
  typeIdx : Nat
  body : Expr
  deriving DecidableEq

/-- Modelled from the spec: a table instance, its type and `min` slots that
start as holes (spec section 4.5 step 8). -/
structure TableInstance where
  type : TableType
  slots : List (Option Nat)
  deriving DecidableEq

/-- Modelled from the spec: a memory instance with `min` 64 KiB pages of
zeroed bytes (spec section 4.5 step 9). -/
structure MemoryInstance where
  type : MemoryType
  data : List Nat
  deriving DecidableEq

/-- Modelled from the spec: a global instance with its type and current
value (spec section 4.1 `allocate_global`). -/
structure GlobalInstance where
  type : GlobalType
  value : Value
  deriving DecidableEq

/-- Modelled from the spec: a Module Instance (spec section 3): name, its own
Store address, the parallel address spaces, the copied function-type table,
the export map and the optional start index. `importGlobalsNum` counts the
imported (low-end) globals, used by the `global.get` restriction of the
initializer dialect. -/
structure ModuleInstance where
  name : String
  addr : Nat := 0
  funcTypes : List FunctionType := []
  funcAddrs : List Nat := []
  tableAddrs : List Nat := []
  memAddrs : List Nat := []
  globalAddrs : List Nat := []
  importGlobalsNum : Nat := 0
  exportsMap : List (String × ExternalType × Nat) := []
  startIdx : Option Nat := none
  deriving DecidableEq

/-- The `ModuleInstance(Name)` constructor: a fresh instance carrying only
its name. -/
def ModuleInstance.mkNamed (Name : String) : ModuleInstance :=
  { name := Name }

/-- `ModuleInstance::addFuncType`: append a `(params, results)` tuple. -/
def ModuleInstance.addFuncType (mi : ModuleInstance)
    (p r : List ValType) : ModuleInstance :=
  { mi with funcTypes := mi.funcTypes ++ [{ paramTypes := p, returnTypes := r }] }

/-- Append a function address to the instance's function space. -/
def ModuleInstance.addFuncAddr (mi : ModuleInstance) (a : Nat) : ModuleInstance :=
  { mi with funcAddrs := mi.funcAddrs ++ [a] }

/-- Append a table address to the instance's table space. -/
def ModuleInstance.addTableAddr (mi : ModuleInstance) (a : Nat) : ModuleInstance :=
  { mi with tableAddrs := mi.tableAddrs ++ [a] }

/-- Append a memory address to the instance's memory space. -/
def ModuleInstance.addMemAddr (mi : ModuleInstance) (a : Nat) : ModuleInstance :=
  { mi with memAddrs := mi.memAddrs ++ [a] }

/-- Append a global address to the instance's global space. -/
def ModuleInstance.addGlobalAddr (mi : ModuleInstance) (a : Nat) : ModuleInstance :=
  { mi with globalAddrs := mi.globalAddrs ++ [a] }

/-- Append an imported global address: the low end of the global space, and
the imported-global count grows with it. -/
def ModuleInstance.addImportGlobalAddr (mi : ModuleInstance) (a : Nat) : ModuleInstance :=
  { mi with globalAddrs := mi.globalAddrs ++ [a],
            importGlobalsNum := mi.importGlobalsNum + 1 }

/-- Record one export entry `name -> (kind, local index)`. -/
def ModuleInstance.addExportEntry (mi : ModuleInstance) (n : String)
    (k : ExternalType) (i : Nat) : ModuleInstance :=
  { mi with exportsMap := mi.exportsMap ++ [(n, k, i)] }

/-- `ModuleInstance::setStartIdx`. -/
def ModuleInstance.setStartIdx (mi : ModuleInstance) (i : Nat) : ModuleInstance :=
  { mi with startIdx := some i }

/-- `ModuleInstance::getStartAddr`: resolve the start-function local index
through the instance's function space to a Store address. -/
def ModuleInstance.getStartAddr (mi : ModuleInstance) : Option Nat :=
  match mi.startIdx with
  | none => none
  | some i => mi.funcAddrs.get? i

/-- Look up an export entry by name in the instance's export map. -/
def ModuleInstance.findExport (mi : ModuleInstance) (n : String) :
    Option (ExternalType × Nat) :=
  lookupName mi.exportsMap n

/-- Modelled from the spec: the Store (spec section 3): four
monotonically-indexed arenas, a module arena, and the name-to-address
buckets of the two publication entry points (`push_module` /
`import_module`, spec section 4.1). -/
structure StoreManager where
  funcs : List FunctionInstance := []
  tables : List TableInstance := []
  mems : List MemoryInstance := []
  globals : List GlobalInstance := []
  mods : List ModuleInstance := []
  instNames : List (String × Nat) := []
  impNames : List (String × Nat) := []
  deriving DecidableEq

/-- The empty Store. -/
def StoreManager.empty : StoreManager := {}

/-- Modelled from the spec: `reset()` purges all arenas (spec section 4.1),
the name buckets included. -/
def StoreManager.reset (_ : StoreManager) : StoreManager := {}

/-- Modelled from the spec: `find_module(name)`, a lookup across both name
buckets. -/
def StoreManager.findModule (s : StoreManager) (n : String) : Option Nat :=
  match lookupName s.instNames n with
  | some a => some a
  | none => lookupName s.impNames n

/-- Modelled from the spec: `push_module(instance)` appends to the module
arena, records the instance's own address in it, and publishes the name in
the `Instantiate` bucket. -/
def StoreManager.pushModule (s : StoreManager) (mi : ModuleInstance) :
    StoreManager × Nat :=
  let a := s.mods.length
  ({ s with mods := s.mods ++ [{ mi with addr := a }],
            instNames := s.instNames ++ [(mi.name, a)] }, a)

/-- Modelled from the spec: `import_module(instance)`: the same append,
publishing the name in the `Import` bucket. -/
def StoreManager.importModule (s : StoreManager) (mi : ModuleInstance) :
    StoreManager × Nat :=
  let a := s.mods.length
  ({ s with mods := s.mods ++ [{ mi with addr := a }],
            impNames := s.impNames ++ [(mi.name, a)] }, a)

/-- Modelled from the spec: `get_module(addr)`; `none` models `BadAddress`. -/
def StoreManager.getModule (s : StoreManager) (a : Nat) : Option ModuleInstance :=
  s.mods.get? a

/-- Modelled from the spec: `get_function(addr)`. -/
def StoreManager.getFunction (s : StoreManager) (a : Nat) : Option FunctionInstance :=
  s.funcs.get? a

/-- Modelled from the spec: `get_table(addr)`. -/
def StoreManager.getTable (s : StoreManager) (a : Nat) : Option TableInstance :=
  s.tables.get? a

/-- Modelled from the spec: `get_memory(addr)`. -/
def StoreManager.getMemory (s : StoreManager) (a : Nat) : Option MemoryInstance :=
  s.mems.get? a

/-- Modelled from the spec: `get_global(addr)`. -/
def StoreManager.getGlobal (s : StoreManager) (a : Nat) : Option GlobalInstance :=
  s.globals.get? a

/-- Modelled from the spec: `allocate_function`: append, return the new
address. -/
def StoreManager.allocFunction (s : StoreManager) (f : FunctionInstance) :
    StoreManager × Nat :=
  ({ s with funcs := s.funcs ++ [f] }, s.funcs.length)

/-- Modelled from the spec: `allocate_table`. -/
def StoreManager.allocTable (s : StoreManager) (t : TableInstance) :
    StoreManager × Nat :=
  ({ s with tables := s.tables ++ [t] }, s.tables.length)

/-- Modelled from the spec: `allocate_memory`. -/
def StoreManager.allocMemory (s : StoreManager) (m : MemoryInstance) :
    StoreManager × Nat :=
  ({ s with mems := s.mems ++ [m] }, s.mems.length)

/-- Modelled from the spec: `allocate_global`. -/
def StoreManager.allocGlobal (s : StoreManager) (g : GlobalInstance) :
    StoreManager × Nat :=
  ({ s with globals := s.globals ++ [g] }, s.globals.length)

/-- Write back the (mutated-in-place in C++) module instance at address
`a`. -/
def StoreManager.updateModule (s : StoreManager) (a : Nat) (mi : ModuleInstance) :
    StoreManager :=
  { s with mods := s.mods.set a mi }

/-- Overwrite the table instance at address `a`. -/
def StoreManager.updateTable (s : StoreManager) (a : Nat) (t : TableInstance) :
    StoreManager :=
  { s with tables := s.tables.set a t }

/-- Overwrite the memory instance at address `a`. -/
def StoreManager.updateMemory (s : StoreManager) (a : Nat) (m : MemoryInstance) :
    StoreManager :=
  { s with mems := s.mems.set a m }

/-- Modelled from the spec: a stack entry is a value or a frame
`(module-instance address, arity, co-arity)` (spec section 3). The head of
the list is the top of the stack. -/
inductive StackEntry
  | value (v : Value)
  | frame (modAddr arity coarity : Nat)
  deriving DecidableEq

/-- Modelled from the spec: `push_frame`. -/
def pushFrame (stk : List StackEntry) (modAddr arity coarity : Nat) :
    List StackEntry :=
  StackEntry.frame modAddr arity coarity :: stk

/-- Modelled from the spec: `pop_frame` truncates values back to the height
recorded on frame entry, then discards the frame. -/
def popFrame : List StackEntry → List StackEntry
  | [] => []
  | StackEntry.frame _ _ _ :: rest => rest
  | StackEntry.value _ :: rest => popFrame rest

/-- Whether some frame entry is on the stack. -/
def stackHasFrame (stk : List StackEntry) : Bool :=
  stk.any fun e =>
    match e with
    | StackEntry.frame _ _ _ => true
    | _ => false

/-- `InstantiateMode` of the Instantiator (spec section 4.5): the user-facing
entry or host registration. -/
inductive InstantiateMode
  | Instantiate
  | Import
  deriving DecidableEq

/-- The interpreter-private context: the stack manager, the
instruction-provider scratch (opaque to instantiation except for being
cleared by its reset), and the configured `InstantiateMode`. -/
structure Interp where
  stackMgr : List StackEntry := []
  instrScratch : List Nat := []
  insMode : InstantiateMode := InstantiateMode.Instantiate
  deriving DecidableEq

/-- Modelled from the spec: the main interpreter's
`run_function(store, function_instance, args)` entry (spec section 6),
abstract here: it may mutate the Store and the stack and returns success or
a trap. -/
abbrev RunFunc :=
  StoreManager → List StackEntry → FunctionInstance → List Value →
    StoreManager × List StackEntry × Except ErrCode Unit

/-- Modelled from the spec: one step of the restricted constant-expression
evaluator (spec section 4.3). Constants push their value; `global.get` of
an imported, immutable global pushes that global's current value; anything
else fails `InvalidInitializer`. `acc` is the value list built so far. -/
def evalInstr (st : StoreManager) (mi : ModuleInstance) (acc : List Value) :
    Instr → Except ErrCode (List Value)
  | Instr.i32const n => Except.ok (Value.I32 n :: acc)
  | Instr.i64const n => Except.ok (Value.I64 n :: acc)
  | Instr.f32const b => Except.ok (Value.F32 b :: acc)
  | Instr.f64const b => Except.ok (Value.F64 b :: acc)
  | Instr.globalGet idx =>
    if idx < mi.importGlobalsNum then
      match mi.globalAddrs.get? idx with
      | none => Except.error ErrCode.InvalidInitializer
      | some a =>
        match st.getGlobal a with
        | none => Except.error ErrCode.BadAddress
        | some g =>
          if g.type.mutability = ValMut.Const then Except.ok (g.value :: acc)
          else Except.error ErrCode.InvalidInitializer
    else Except.error ErrCode.InvalidInitializer
  | Instr.other _ => Except.error ErrCode.InvalidInitializer

/-- Modelled from the spec: run an initializer expression, accumulating
pushed values. -/
def evalInstrs (st : StoreManager) (mi : ModuleInstance) (acc : List Value) :
    Expr → Except ErrCode (List Value)
  | [] => Except.ok acc
  | i :: rest =>
    match evalInstr st mi acc i with
    | Except.error e => Except.error e
    | Except.ok acc' => evalInstrs st mi acc' rest

/-- Modelled from the spec: evaluate an initializer expression to the single
typed scalar it must produce (spec section 4.3); side-effect free on the
Store. -/
def evalExpression (st : StoreManager) (mi : ModuleInstance) (e : Expr) :
    Except ErrCode Value :=
  match evalInstrs st mi [] e with
  | Except.error err => Except.error err
  | Except.ok [v] => Except.ok v
  | Except.ok _ => Except.error ErrCode.InvalidInitializer

/-- Modelled from the spec: `resolveExpression` over the element section
(spec section 4.5 step 10): each offset initializer must produce a single
`i32`. -/
def resolveElemOffsets (st : StoreManager) (mi : ModuleInstance) :
    List ElemSegment → Except ErrCode (List Nat)
  | [] => Except.ok []
  | s :: rest =>
    match evalExpression st mi s.offsetExpr with
    | Except.error e => Except.error e
    | Except.ok (Value.I32 n) =>
      match resolveElemOffsets st mi rest with
      | Except.error e => Except.error e
      | Except.ok offs => Except.ok (n :: offs)
    | Except.ok _ => Except.error ErrCode.InvalidInitializer

/-- Modelled from the spec: `resolveExpression` over the data section. -/
def resolveDataOffsets (st : StoreManager) (mi : ModuleInstance) :
    List DataSegment → Except ErrCode (List Nat)
  | [] => Except.ok []
  | s :: rest =>
    match evalExpression st mi s.offsetExpr with
    | Except.error e => Except.error e
    | Except.ok (Value.I32 n) =>
      match resolveDataOffsets st mi rest with
      | Except.error e => Except.error e
      | Except.ok offs => Except.ok (n :: offs)
    | Except.ok _ => Except.error ErrCode.InvalidInitializer

/-- Modelled from the spec: whether the actual limit of an exported entity
satisfies the imported one (spec section 4.4 step 4): `import.min` at most
`actual.min`, and when the import declares a max, the actual declares one
not above it. -/
def limitMatched (imp act : Limit) : Bool :=
  decide (imp.getMin ≤ act.getMin) &&
    (if imp.hasMax then act.hasMax && decide (act.getMax ≤ imp.getMax) else true)

/-- Modelled from the spec: resolve and match one import descriptor
(spec section 4.4): find the module, find the export, match the kinds,
match the concrete types, and copy the exporter's Store address into the
importing instance's corresponding space. Out-of-range Store or index
lookups surface as `BadAddress`. -/
def matchImport (st : StoreManager) (mi : ModuleInstance) (d : ImportDesc) :
    ModuleInstance × Except ErrCode Unit :=
  match st.findModule d.modName with
  | none => (mi, Except.error ErrCode.UnknownImport)
  | some mAddr =>
    match st.getModule mAddr with
    | none => (mi, Except.error ErrCode.BadAddress)
    | some target =>
      match target.findExport d.extName with
      | none => (mi, Except.error ErrCode.UnknownImport)
      | some (kind, idx) =>
        if kind = d.extType then
          match d.extType with
          | ExternalType.Func =>
            match d.getExternalContentU32 with
            | Except.error e => (mi, Except.error e)
            | Except.ok tyIdx =>
              match mi.funcTypes.get? tyIdx with
              | none => (mi, Except.error ErrCode.BadAddress)
              | some decl =>
                match target.funcAddrs.get? idx with
                | none => (mi, Except.error ErrCode.BadAddress)
                | some fAddr =>
                  match st.getFunction fAddr with
                  | none => (mi, Except.error ErrCode.BadAddress)
                  | some fInst =>
                    match target.funcTypes.get? fInst.typeIdx with
                    | none => (mi, Except.error ErrCode.BadAddress)
                    | some actual =>
                      if decl = actual then
                        (mi.addFuncAddr fAddr, Except.ok ())
                      else (mi, Except.error ErrCode.IncompatibleImportType)
          | ExternalType.Table =>
            match d.getExternalContentTable with
            | Except.error e => (mi, Except.error e)
            | Except.ok tt =>
              match target.tableAddrs.get? idx with
              | none => (mi, Except.error ErrCode.BadAddress)
              | some tAddr =>
                match st.getTable tAddr with
                | none => (mi, Except.error ErrCode.BadAddress)
                | some tInst =>
                  if tt.elemType = tInst.type.elemType &&
                      limitMatched tt.limit tInst.type.limit then
                    (mi.addTableAddr tAddr, Except.ok ())
                  else (mi, Except.error ErrCode.IncompatibleImportType)
          | ExternalType.Mem =>
            match d.getExternalContentMemory with
            | Except.error e => (mi, Except.error e)
            | Except.ok mt =>
              match target.memAddrs.get? idx with
              | none => (mi, Except.error ErrCode.BadAddress)
              | some mAddr2 =>
                match st.getMemory mAddr2 with
                | none => (mi, Except.error ErrCode.BadAddress)
                | some mInst =>
                  if limitMatched mt.limit mInst.type.limit then
                    (mi.addMemAddr mAddr2, Except.ok ())
                  else (mi, Except.error ErrCode.IncompatibleImportType)
          | ExternalType.Global =>
            match d.getExternalContentGlobal with
            | Except.error e => (mi, Except.error e)
            | Except.ok gt =>
              match target.globalAddrs.get? idx with
              | none => (mi, Except.error ErrCode.BadAddress)
              | some gAddr =>
                match st.getGlobal gAddr with
                | none => (mi, Except.error ErrCode.BadAddress)
                | some gInst =>
                  if gt = gInst.type then
                    (mi.addImportGlobalAddr gAddr, Except.ok ())
                  else (mi, Except.error ErrCode.IncompatibleImportType)
        else (mi, Except.error ErrCode.IncompatibleImportType)

/-- Modelled from the spec: instantiate the import section (spec section 4.5
step 5): resolve each descriptor in order, stopping at the first failure.
The Store is only read. -/
def instImports (st : StoreManager) (mi : ModuleInstance) :
    List ImportDesc → ModuleInstance × Except ErrCode Unit
  | [] => (mi, Except.ok ())
  | d :: rest =>
    match matchImport st mi d with
    | (mi', Except.error e) => (mi', Except.error e)
    | (mi', Except.ok _) => instImports st mi' rest

/-- Modelled from the spec: allocate the local functions (spec section 4.5
step 6): for each Function/Code pair, allocate a function bound to
`(type_index, module_addr, body)` and append its address. -/
def instFuncCode (st : StoreManager) (mi : ModuleInstance) :
    List (Nat × Expr) → StoreManager × ModuleInstance × Except ErrCode Unit
  | [] => (st, mi, Except.ok ())
  | (tyIdx, body) :: rest =>
    let (st', a) := st.allocFunction
      { modAddr := mi.addr, typeIdx := tyIdx, body := body }
    instFuncCode st' (mi.addFuncAddr a) rest

/-- Modelled from the spec: allocate the globals (spec section 4.5 step 7):
evaluate each initializer against the partially built instance, allocate a
global with the declared type and that value, append its address. Stops at
the first failing initializer, keeping earlier allocations. -/
def instGlobals (st : StoreManager) (mi : ModuleInstance) :
    List GlobalSegment → StoreManager × ModuleInstance × Except ErrCode Unit
  | [] => (st, mi, Except.ok ())
  | g :: rest =>
    match evalExpression st mi g.expr with
    | Except.error e => (st, mi, Except.error e)
    | Except.ok v =>
      let (st', a) := st.allocGlobal { type := g.globalType, value := v }
      instGlobals st' (mi.addGlobalAddr a) rest

/-- Modelled from the spec: allocate the tables (spec section 4.5 step 8):
capacity `min`, all holes. -/
def instTables (st : StoreManager) (mi : ModuleInstance) :
    List TableType → StoreManager × ModuleInstance × Except ErrCode Unit
  | [] => (st, mi, Except.ok ())
  | t :: rest =>
    let (st', a) := st.allocTable
      { type := t, slots := List.replicate t.limit.getMin none }
    instTables st' (mi.addTableAddr a) rest

/-- Modelled from the spec: allocate the memories (spec section 4.5 step 9):
`min` pages of 64 KiB zeroed bytes. -/
def instMems (st : StoreManager) (mi : ModuleInstance) :
    List MemoryType → StoreManager × ModuleInstance × Except ErrCode Unit
  | [] => (st, mi, Except.ok ())
  | m :: rest =>
    let (st', a) := st.allocMemory
      { type := m, data := List.replicate (m.limit.getMin * 65536) 0 }
    instMems st' (mi.addMemAddr a) rest

/-- Write `addrs` into consecutive table slots starting at `off`. -/
def writeSlots (slots : List (Option Nat)) (off : Nat) :
    List Nat → List (Option Nat)
  | [] => slots
  | a :: rest => writeSlots (slots.set off (some a)) (off + 1) rest

/-- Write `bytes` into consecutive memory cells starting at `off`. -/
def writeBytes (data : List Nat) (off : Nat) : List Nat → List Nat
  | [] => data
  | b :: rest => writeBytes (data.set off b) (off + 1) rest

/-- Resolve module-local function indices to Store addresses through the
instance's function space. -/
def resolveFuncAddrs (mi : ModuleInstance) : List Nat → Except ErrCode (List Nat)
  | [] => Except.ok []
  | i :: rest =>
    match mi.funcAddrs.get? i with
    | none => Except.error ErrCode.BadAddress
    | some a =>
      match resolveFuncAddrs mi rest with
      | Except.error e => Except.error e
      | Except.ok as2 => Except.ok (a :: as2)

/-- Modelled from the spec: apply the element segments (spec section 4.5
step 11): for segment `i` targeting table `t`, bounds-check
`offset + length` against the table size, failing `TableOutOfRange` on
overflow, otherwise write the resolved function addresses into the slots. -/
def instElems (st : StoreManager) (mi : ModuleInstance) :
    List ElemSegment → List Nat → StoreManager × Except ErrCode Unit
  | [], _ => (st, Except.ok ())
  | _ :: _, [] => (st, Except.error ErrCode.BadAddress)
  | s :: rest, off :: offs =>
    match mi.tableAddrs.get? s.tableIdx with
    | none => (st, Except.error ErrCode.BadAddress)
    | some tAddr =>
      match st.getTable tAddr with
      | none => (st, Except.error ErrCode.BadAddress)
      | some tab =>
        if off + s.funcIdxs.length ≤ tab.slots.length then
          match resolveFuncAddrs mi s.funcIdxs with
          | Except.error e => (st, Except.error e)
          | Except.ok addrs =>
            instElems
              (st.updateTable tAddr { tab with slots := writeSlots tab.slots off addrs })
              mi rest offs
        else (st, Except.error ErrCode.TableOutOfRange)

/-- Modelled from the spec: apply the data segments (spec section 4.5
step 12): the same pattern for memory bytes, with `MemoryOutOfRange` on
overflow. -/
def instData (st : StoreManager) (mi : ModuleInstance) :
    List DataSegment → List Nat → StoreManager × Except ErrCode Unit
  | [], _ => (st, Except.ok ())
  | _ :: _, [] => (st, Except.error ErrCode.BadAddress)
  | s :: rest, off :: offs =>
    match mi.memAddrs.get? s.memIdx with
    | none => (st, Except.error ErrCode.BadAddress)
    | some mAddr =>
      match st.getMemory mAddr with
      | none => (st, Except.error ErrCode.BadAddress)
      | some mem =>
        if off + s.bytes.length ≤ mem.data.length then
          instData
            (st.updateMemory mAddr { mem with data := writeBytes mem.data off s.bytes })
            mi rest offs
        else (st, Except.error ErrCode.MemoryOutOfRange)

/-- Modelled from the spec: publish the exports inside the instance
(spec section 4.5 step 13); a repeated export name fails
`DuplicateExportName`. -/
def instExports (mi : ModuleInstance) :
    List ExportDesc → ModuleInstance × Except ErrCode Unit
  | [] => (mi, Except.ok ())
  | e :: rest =>
    match mi.findExport e.extName with
    | some _ => (mi, Except.error ErrCode.DuplicateExportName)
    | none => instExports (mi.addExportEntry e.extName e.extType e.extIdx) rest

/-- Install the function types (spec section 4.5 step 4; the loop of lines
35-43 of `src/lib/interpreter/instantiate/module.cpp`): copy each
`(params, results)` tuple into the instance, in order. -/
def instTypes (mi : ModuleInstance) : List FunctionType → ModuleInstance
  | [] => mi
  | ft :: rest => instTypes (mi.addFuncType ft.paramTypes ft.returnTypes) rest

/-- Lines 45-51 of `src/lib/interpreter/instantiate/module.cpp`: run the
ImportSec sub-instantiation when the section is present. The Store is
passed through unchanged (import matching only reads it). -/
def stepImports (st : StoreManager) (mi : ModuleInstance) (m : Module) :
    StoreManager × ModuleInstance × Except ErrCode Unit :=
  match m.importSec with
  | some isec =>
    let p := instImports st mi isec
    (st, p.1, p.2)
  | none => (st, mi, Except.ok ())

/-- Lines 53-60: run the local-function allocation only when both the
Function and the Code section are present. -/
def stepFuncCode (st : StoreManager) (mi : ModuleInstance) (m : Module) :
    StoreManager × ModuleInstance × Except ErrCode Unit :=
  match m.funcSec, m.codeSec with
  | some fs, some cs => instFuncCode st mi (fs.zip cs)
  | _, _ => (st, mi, Except.ok ())

/-- Lines 62-68: run the GlobalSec sub-instantiation when present. -/
def stepGlobals (st : StoreManager) (mi : ModuleInstance) (m : Module) :
    StoreManager × ModuleInstance × Except ErrCode Unit :=
  match m.globalSec with
  | some gs => instGlobals st mi gs
  | none => (st, mi, Except.ok ())

/-- Lines 70-76: run the TableSec sub-instantiation when present. -/
def stepTables (st : StoreManager) (mi : ModuleInstance) (m : Module) :
    StoreManager × ModuleInstance × Except ErrCode Unit :=
  match m.tableSec with
  | some ts => instTables st mi ts
  | none => (st, mi, Except.ok ())

/-- Lines 78-84: run the MemorySec sub-instantiation when present. -/
def stepMems (st : StoreManager) (mi : ModuleInstance) (m : Module) :
    StoreManager × ModuleInstance × Except ErrCode Unit :=
  match m.memSec with
  | some ms => instMems st mi ms
  | none => (st, mi, Except.ok ())

/-- Lines 94-102: resolve the offset list of the element section (an empty
vector when the section is absent). -/
def stepElemOffsets (st : StoreManager) (mi : ModuleInstance) (m : Module) :
    Except ErrCode (List Nat) :=
  match m.elemSec with
  | some es => resolveElemOffsets st mi es
  | none => Except.ok []

/-- Lines 104-112: resolve the offset list of the data section. -/
def stepDataOffsets (st : StoreManager) (mi : ModuleInstance) (m : Module) :
    Except ErrCode (List Nat) :=
  match m.dataSec with
  | some ds => resolveDataOffsets st mi ds
  | none => Except.ok []

/-- Lines 117-123: apply the element segments when the section is present;
the instance is read-only here. -/
def stepElems (st : StoreManager) (mi : ModuleInstance) (m : Module)
    (offs : List Nat) : StoreManager × ModuleInstance × Except ErrCode Unit :=
  match m.elemSec with
  | some es =>
    let p := instElems st mi es offs
    (p.1, mi, p.2)
  | none => (st, mi, Except.ok ())

/-- Lines 125-131: apply the data segments when the section is present. -/
def stepData (st : StoreManager) (mi : ModuleInstance) (m : Module)
    (offs : List Nat) : StoreManager × ModuleInstance × Except ErrCode Unit :=
  match m.dataSec with
  | some ds =>
    let p := instData st mi ds offs
    (p.1, mi, p.2)
  | none => (st, mi, Except.ok ())

/-- Lines 133-139: publish the exports when the section is present; the
Store is passed through unchanged. -/
def stepExports (st : StoreManager) (mi : ModuleInstance) (m : Module) :
    StoreManager × ModuleInstance × Except ErrCode Unit :=
  match m.exportSec with
  | some es =>
    let p := instExports mi es
    (st, p.1, p.2)
  | none => (st, mi, Except.ok ())

/-- The `if (auto Res = instantiate(...); !Res) { return Unexpect(Res); }`
pattern of `src/lib/interpreter/instantiate/module.cpp`: after a
sub-instantiation, propagate a failure to the caller (with the in-place
mutated instance written back at address `addr` — in C++ the instance
lives inside the Store, so the write-back is implicit) or continue the
pipeline with the updated Store and instance. -/
def pipeStep (addr : Nat) (it : Interp)
    (r : StoreManager × ModuleInstance × Except ErrCode Unit)
    (k : StoreManager → ModuleInstance →
      StoreManager × Interp × Except ErrCode ModuleInstance) :
    StoreManager × Interp × Except ErrCode ModuleInstance :=
  match r.2.2 with
  | Except.error e => (r.1.updateModule addr r.2.1, it, Except.error e)
  | Except.ok _ => k (r.1.updateModule addr r.2.1) r.2.1

/-- Lines 14-145 of `Interpreter::instantiate` in
`src/lib/interpreter/instantiate/module.cpp`: everything before the Start
section. Returns the final Store, the final interpreter context, and the
fully built module instance or the first error. Mirrored line by line:

* lines 14-17: `StoreMgr.reset(); StackMgr.reset(); InstrPdr.reset();`
* lines 19-22: the `ModuleNameConflict` check;
* lines 23-32: create the instance, insert by `InsMode`, retrieve it;
* lines 34-43: the TypeSec loop;
* lines 45-84: the ImportSec, FuncionSec/CodeSec (guarded by both sections
  being present), GlobalSec, TableSec, MemorySec sub-instantiations, each
  returning `Unexpect(Res)` on failure;
* lines 86-115: push the synthetic frame `(ModInst->Addr, 0, 0)`, resolve
  the element and data offset lists (early return on failure, before the
  frame is popped), pop the frame;
* lines 117-139: apply element and data segments, publish exports;
* lines 141-145: the compiled-module ctor hook, which calls external
  compiled code through fixed callbacks and has no effect on the state
  modelled here.

The C++ mutates `*ModInst` in place inside the Store; here the instance is
threaded and written back at each step boundary, so the Store copy agrees
with the threaded instance at every return. The unchecked C++ dereferences
of `Expect` results (lines 32, 154, 155) are modelled with `Option.getD`. -/
def Interpreter.instantiatePre (StoreMgr0 : StoreManager) (It0 : Interp)
    (Mod : Module) (Name : String) :
    StoreManager × Interp × Except ErrCode ModuleInstance :=
  let StoreMgr := StoreMgr0.reset
  let It : Interp := { It0 with stackMgr := [], instrScratch := [] }
  match StoreMgr.findModule Name with
  | some _ => (StoreMgr, It, Except.error ErrCode.ModuleNameConflict)
  | none =>
    let NewModInst := ModuleInstance.mkNamed Name
    let pushed :=
      match It.insMode with
      | InstantiateMode.Instantiate => StoreMgr.pushModule NewModInst
      | InstantiateMode.Import => StoreMgr.importModule NewModInst
    let ModInstAddr := pushed.2
    let ModInst0 := (pushed.1.getModule ModInstAddr).getD NewModInst
    let ModInst1 :=
      match Mod.typeSec with
      | some ts => instTypes ModInst0 ts
      | none => ModInst0
    let st2 := pushed.1.updateModule ModInstAddr ModInst1
    pipeStep ModInstAddr It (stepImports st2 ModInst1 Mod) fun st3 mi2 =>
    pipeStep ModInstAddr It (stepFuncCode st3 mi2 Mod) fun st4 mi3 =>
    pipeStep ModInstAddr It (stepGlobals st4 mi3 Mod) fun st5 mi4 =>
    pipeStep ModInstAddr It (stepTables st5 mi4 Mod) fun st6 mi5 =>
    pipeStep ModInstAddr It (stepMems st6 mi5 Mod) fun st7 mi6 =>
    let It2 := { It with stackMgr := pushFrame It.stackMgr mi6.addr 0 0 }
    match stepElemOffsets st7 mi6 Mod with
    | Except.error e => (st7, It2, Except.error e)
    | Except.ok ElemOffsets =>
      match stepDataOffsets st7 mi6 Mod with
      | Except.error e => (st7, It2, Except.error e)
      | Except.ok DataOffsets =>
        let It3 := { It2 with stackMgr := popFrame It2.stackMgr }
        pipeStep ModInstAddr It3 (stepElems st7 mi6 Mod ElemOffsets) fun st8 _ =>
        pipeStep ModInstAddr It3 (stepData st8 mi6 Mod DataOffsets) fun st9 _ =>
        pipeStep ModInstAddr It3 (stepExports st9 mi6 Mod) fun st10 mi7 =>
        (st10, It3, Except.ok mi7)

/-- `Interpreter::instantiate` of
`src/lib/interpreter/instantiate/module.cpp` (lines 11-161): the pipeline
through exports and ctor hook (`Interpreter.instantiatePre`), then lines
147-160: if a Start section is present, record the start index, resolve it
through the instance to a Store address, fetch the function instance, and
run it with the empty argument vector through the main interpreter `runF`,
whose outcome (success or trap) is the outcome of `instantiate`; with no
Start section, success. -/
def Interpreter.instantiate (runF : RunFunc) (StoreMgr0 : StoreManager)
    (It0 : Interp) (Mod : Module) (Name : String) :
    StoreManager × Interp × Except ErrCode Unit :=
  let pre := Interpreter.instantiatePre StoreMgr0 It0 Mod Name
  match pre.2.2 with
  | Except.error e => (pre.1, pre.2.1, Except.error e)
  | Except.ok mi =>
    match Mod.startSec with
    | some idx =>
      let mi2 := mi.setStartIdx idx
      let st2 := pre.1.updateModule mi2.addr mi2
      let Addr := mi2.getStartAddr.getD 0
      let FuncInst :=
        (st2.getFunction Addr).getD { modAddr := 0, typeIdx := 0, body := [] }
      let r := runF st2 pre.2.1.stackMgr FuncInst []
      (r.1, { pre.2.1 with stackMgr := r.2.1 }, r.2.2)
    | none => (pre.1, pre.2.1, Except.ok ())

/-- A main-interpreter stand-in that succeeds and leaves Store and stack
untouched, used to run `instantiate` on concrete inputs. -/
def runF0 : RunFunc := fun s k _ _ => (s, k, Except.ok ())

/-- The default interpreter context: empty stack, empty scratch,
user-facing `Instantiate` mode. -/
def interp0 : Interp := {}

/-- A module with no sections at all. -/
def emptyModule : Module := {}

/-- A Store already holding one module registered under the name `A`
(spec section 8, end-to-end scenario: instantiating `A` then `B`). -/
def storeWithA : StoreManager :=
  (StoreManager.empty.pushModule (ModuleInstance.mkNamed "A")).1

/-- A module whose single element segment has a non-constant offset
initializer, so instantiation fails at offset resolution (after the
instance was placed in the Store and the synthetic frame pushed). -/
def modBadElemOffset : Module :=
  { elemSec := some [{ tableIdx := 0, offsetExpr := [Instr.other 0], funcIdxs := [] }] }

/-- A module whose single data segment has a non-constant offset
initializer. -/
def modBadDataOffset : Module :=
  { dataSec := some [{ memIdx := 0, offsetExpr := [Instr.other 7], bytes := [] }] }

/-- A module with one local function (empty signature) designated as the
start function. -/
def modWithStart : Module :=
  { typeSec := some [{ paramTypes := [], returnTypes := [] }],
    funcSec := some [0],
    codeSec := some [[Instr.other 0]],
    startSec := some 0 }

/-- A module with a Function section but no Code section. -/
def modFuncNoCode : Module :=
  { funcSec := some [0] }

/-- A module importing a function from a module `env` that is not in the
Store. -/
def modImportMissing : Module :=
  { importSec := some [{ extType := ExternalType.Func, modName := "env",
                         extName := "f", extContent := ExtContent.funcTypeIdx 0 }] }

/-- A module whose single global has a non-constant initializer. -/
def modBadGlobalInit : Module :=
  { globalSec := some [{ globalType := { valType := ValType.I32,
                                         mutability := ValMut.Const },
                         expr := [Instr.other 9] }] }

/-- A module whose element segment writes two functions into a one-slot
table. -/
def modElemOutOfRange : Module :=
  { tableSec := some [{ elemType := ElemType.FuncRef,
                        limit := Limit.ofMinMax 1 1 }],
    elemSec := some [{ tableIdx := 0, offsetExpr := [Instr.i32const 0],
                       funcIdxs := [5, 6] }] }

/-- A module exporting the name `x` twice. -/
def modDupExport : Module :=
  { exportSec := some [{ extType := ExternalType.Func, extName := "x", extIdx := 0 },
                       { extType := ExternalType.Func, extName := "x", extIdx := 1 }] }

/-! ## Theorems -/

/-! Shape lemmas: each pipeline step only appends to (or rewrites) its own
arena and its own instance space, leaving every other field untouched. -/

theorem instTypes_shape (ts : List FunctionType) :
    ∀ mi : ModuleInstance, ∃ l, instTypes mi ts = { mi with funcTypes := l } := by
  induction ts with
  | nil => exact fun mi => ⟨mi.funcTypes, rfl⟩
  | cons ft rest ih =>
    intro mi
    obtain ⟨l, hl⟩ := ih (mi.addFuncType ft.paramTypes ft.returnTypes)
    exact ⟨l, by rw [instTypes, hl]; rfl⟩

theorem instFuncCode_shape (l : List (Nat × Expr)) :
    ∀ st mi, ∃ fl al, instFuncCode st mi l =
      ({ st with funcs := st.funcs ++ fl },
       { mi with funcAddrs := mi.funcAddrs ++ al }, Except.ok ()) := by
  induction l with
  | nil => exact fun st mi => ⟨[], [], by simp [instFuncCode]⟩
  | cons p rest ih =>
    intro st mi
    obtain ⟨tyIdx, body⟩ := p
    obtain ⟨fl, al, h⟩ :=
      ih { st with funcs := st.funcs ++ [⟨mi.addr, tyIdx, body⟩] }
        (mi.addFuncAddr st.funcs.length)
    refine ⟨⟨mi.addr, tyIdx, body⟩ :: fl, st.funcs.length :: al, ?_⟩
    rw [instFuncCode]
    simp only [StoreManager.allocFunction, ModuleInstance.addFuncAddr] at h ⊢
    rw [h]
    simp

theorem instGlobals_shape (l : List GlobalSegment) :
    ∀ st mi, ∃ gl al r, instGlobals st mi l =
      ({ st with globals := st.globals ++ gl },
       { mi with globalAddrs := mi.globalAddrs ++ al }, r) := by
  induction l with
  | nil => exact fun st mi => ⟨[], [], Except.ok (), by simp [instGlobals]⟩
  | cons g rest ih =>
    intro st mi
    rw [instGlobals]
    cases hv : evalExpression st mi g.expr with
    | error e => exact ⟨[], [], Except.error e, by simp⟩
    | ok v =>
      obtain ⟨gl, al, r, h⟩ :=
        ih { st with globals := st.globals ++ [⟨g.globalType, v⟩] }
          (mi.addGlobalAddr st.globals.length)
      refine ⟨⟨g.globalType, v⟩ :: gl, st.globals.length :: al, r, ?_⟩
      simp only [StoreManager.allocGlobal, ModuleInstance.addGlobalAddr] at h ⊢
      rw [h]
      simp

theorem instTables_shape (l : List TableType) :
    ∀ st mi, ∃ tl al, instTables st mi l =
      ({ st with tables := st.tables ++ tl },
       { mi with tableAddrs := mi.tableAddrs ++ al }, Except.ok ()) := by
  induction l with
  | nil => exact fun st mi => ⟨[], [], by simp [instTables]⟩
  | cons t rest ih =>
    intro st mi
    obtain ⟨tl, al, h⟩ :=
      ih { st with tables := st.tables ++ [⟨t, List.replicate t.limit.getMin none⟩] }
        (mi.addTableAddr st.tables.length)
    refine ⟨⟨t, List.replicate t.limit.getMin none⟩ :: tl,
      st.tables.length :: al, ?_⟩
    rw [instTables]
    simp only [StoreManager.allocTable, ModuleInstance.addTableAddr] at h ⊢
    rw [h]
    simp

theorem instMems_shape (l : List MemoryType) :
    ∀ st mi, ∃ ml al, instMems st mi l =
      ({ st with mems := st.mems ++ ml },
       { mi with memAddrs := mi.memAddrs ++ al }, Except.ok ()) := by
  induction l with
  | nil => exact fun st mi => ⟨[], [], by simp [instMems]⟩
  | cons m rest ih =>
    intro st mi
    obtain ⟨ml, al, h⟩ :=
      ih { st with mems := st.mems ++ [⟨m, List.replicate (m.limit.getMin * 65536) 0⟩] }
        (mi.addMemAddr st.mems.length)
    refine ⟨⟨m, List.replicate (m.limit.getMin * 65536) 0⟩ :: ml,
      st.mems.length :: al, ?_⟩
    rw [instMems]
    simp only [StoreManager.allocMemory, ModuleInstance.addMemAddr] at h ⊢
    rw [h]
    simp

theorem instElems_shape (l : List ElemSegment) :
    ∀ offs st mi, ∃ tl r, instElems st mi l offs =
      ({ st with tables := tl }, r) := by
  induction l with
  | nil => exact fun offs st mi => ⟨st.tables, Except.ok (), by rw [instElems]⟩
  | cons s rest ih =>
    intro offs st mi
    cases offs with
    | nil => exact ⟨st.tables, Except.error ErrCode.BadAddress, by rw [instElems]⟩
    | cons off offs' =>
      rw [instElems]
      cases hta : mi.tableAddrs.get? s.tableIdx with
      | none => exact ⟨st.tables, Except.error ErrCode.BadAddress, by simp [hta]⟩
      | some tAddr =>
        cases hgt : st.getTable tAddr with
        | none => exact ⟨st.tables, Except.error ErrCode.BadAddress, by simp [hta, hgt]⟩
        | some tab =>
          by_cases hb : off + s.funcIdxs.length ≤ tab.slots.length
          · cases hra : resolveFuncAddrs mi s.funcIdxs with
            | error e => exact ⟨st.tables, Except.error e, by simp [hta, hgt, hb, hra]⟩
            | ok addrs =>
              obtain ⟨tl, r, h⟩ := ih offs'
                (st.updateTable tAddr { tab with slots := writeSlots tab.slots off addrs }) mi
              refine ⟨tl, r, ?_⟩
              simp [StoreManager.updateTable, hta, hgt, hb, hra] at h ⊢
              exact h
          · exact ⟨st.tables, Except.error ErrCode.TableOutOfRange, by simp [hta, hgt, hb]⟩

theorem instData_shape (l : List DataSegment) :
    ∀ offs st mi, ∃ ml r, instData st mi l offs =
      ({ st with mems := ml }, r) := by
  induction l with
  | nil => exact fun offs st mi => ⟨st.mems, Except.ok (), by rw [instData]⟩
  | cons s rest ih =>
    intro offs st mi
    cases offs with
    | nil => exact ⟨st.mems, Except.error ErrCode.BadAddress, by rw [instData]⟩
    | cons off offs' =>
      rw [instData]
      cases hma : mi.memAddrs.get? s.memIdx with
      | none => exact ⟨st.mems, Except.error ErrCode.BadAddress, by simp [hma]⟩
      | some mAddr =>
        cases hgm : st.getMemory mAddr with
        | none => exact ⟨st.mems, Except.error ErrCode.BadAddress, by simp [hma, hgm]⟩
        | some mem =>
          by_cases hb : off + s.bytes.length ≤ mem.data.length
          · obtain ⟨ml, r, h⟩ := ih offs'
              (st.updateMemory mAddr { mem with data := writeBytes mem.data off s.bytes }) mi
            refine ⟨ml, r, ?_⟩
            simp [StoreManager.updateMemory, hma, hgm, hb] at h ⊢
            exact h
          · exact ⟨st.mems, Except.error ErrCode.MemoryOutOfRange, by simp [hma, hgm, hb]⟩

theorem instTypes_exportsMap (ts : List FunctionType) (mi : ModuleInstance) :
    (instTypes mi ts).exportsMap = mi.exportsMap := by
  obtain ⟨l, h⟩ := instTypes_shape ts mi
  rw [h]

theorem instTypes_tableAddrs (ts : List FunctionType) (mi : ModuleInstance) :
    (instTypes mi ts).tableAddrs = mi.tableAddrs := by
  obtain ⟨l, h⟩ := instTypes_shape ts mi
  rw [h]

theorem instFuncCode_res (l : List (Nat × Expr)) (st : StoreManager)
    (mi : ModuleInstance) : (instFuncCode st mi l).2.2 = Except.ok () := by
  obtain ⟨fl, al, h⟩ := instFuncCode_shape l st mi
  rw [h]

theorem instFuncCode_fst_tables (l : List (Nat × Expr)) (st : StoreManager)
    (mi : ModuleInstance) : ((instFuncCode st mi l).1).tables = st.tables := by
  obtain ⟨fl, al, h⟩ := instFuncCode_shape l st mi
  rw [h]

theorem instFuncCode_fst_mems (l : List (Nat × Expr)) (st : StoreManager)
    (mi : ModuleInstance) : ((instFuncCode st mi l).1).mems = st.mems := by
  obtain ⟨fl, al, h⟩ := instFuncCode_shape l st mi
  rw [h]

theorem instFuncCode_fst_globals (l : List (Nat × Expr)) (st : StoreManager)
    (mi : ModuleInstance) : ((instFuncCode st mi l).1).globals = st.globals := by
  obtain ⟨fl, al, h⟩ := instFuncCode_shape l st mi
  rw [h]

theorem instFuncCode_fst_mods (l : List (Nat × Expr)) (st : StoreManager)
    (mi : ModuleInstance) : ((instFuncCode st mi l).1).mods = st.mods := by
  obtain ⟨fl, al, h⟩ := instFuncCode_shape l st mi
  rw [h]

theorem instFuncCode_snd_exportsMap (l : List (Nat × Expr)) (st : StoreManager)
    (mi : ModuleInstance) :
    ((instFuncCode st mi l).2.1).exportsMap = mi.exportsMap := by
  obtain ⟨fl, al, h⟩ := instFuncCode_shape l st mi
  rw [h]

theorem instFuncCode_snd_tableAddrs (l : List (Nat × Expr)) (st : StoreManager)
    (mi : ModuleInstance) :
    ((instFuncCode st mi l).2.1).tableAddrs = mi.tableAddrs := by
  obtain ⟨fl, al, h⟩ := instFuncCode_shape l st mi
  rw [h]

theorem instGlobals_fst_funcs (l : List GlobalSegment) (st : StoreManager)
    (mi : ModuleInstance) : ((instGlobals st mi l).1).funcs = st.funcs := by
  obtain ⟨gl, al, r, h⟩ := instGlobals_shape l st mi
  rw [h]

theorem instTables_res (l : List TableType) (st : StoreManager)
    (mi : ModuleInstance) : (instTables st mi l).2.2 = Except.ok () := by
  obtain ⟨tl, al, h⟩ := instTables_shape l st mi
  rw [h]

theorem instTables_fst_funcs (l : List TableType) (st : StoreManager)
    (mi : ModuleInstance) : ((instTables st mi l).1).funcs = st.funcs := by
  obtain ⟨tl, al, h⟩ := instTables_shape l st mi
  rw [h]

theorem instMems_res (l : List MemoryType) (st : StoreManager)
    (mi : ModuleInstance) : (instMems st mi l).2.2 = Except.ok () := by
  obtain ⟨ml, al, h⟩ := instMems_shape l st mi
  rw [h]

theorem instMems_fst_funcs (l : List MemoryType) (st : StoreManager)
    (mi : ModuleInstance) : ((instMems st mi l).1).funcs = st.funcs := by
  obtain ⟨ml, al, h⟩ := instMems_shape l st mi
  rw [h]

theorem instMems_fst_tables (l : List MemoryType) (st : StoreManager)
    (mi : ModuleInstance) : ((instMems st mi l).1).tables = st.tables := by
  obtain ⟨ml, al, h⟩ := instMems_shape l st mi
  rw [h]

theorem instMems_fst_mods (l : List MemoryType) (st : StoreManager)
    (mi : ModuleInstance) : ((instMems st mi l).1).mods = st.mods := by
  obtain ⟨ml, al, h⟩ := instMems_shape l st mi
  rw [h]

theorem instMems_snd_exportsMap (l : List MemoryType) (st : StoreManager)
    (mi : ModuleInstance) :
    ((instMems st mi l).2.1).exportsMap = mi.exportsMap := by
  obtain ⟨ml, al, h⟩ := instMems_shape l st mi
  rw [h]

theorem instMems_snd_tableAddrs (l : List MemoryType) (st : StoreManager)
    (mi : ModuleInstance) :
    ((instMems st mi l).2.1).tableAddrs = mi.tableAddrs := by
  obtain ⟨ml, al, h⟩ := instMems_shape l st mi
  rw [h]

theorem instElems_fst_funcs (l : List ElemSegment) (offs : List Nat)
    (st : StoreManager) (mi : ModuleInstance) :
    ((instElems st mi l offs).1).funcs = st.funcs := by
  obtain ⟨tl, r, h⟩ := instElems_shape l offs st mi
  rw [h]

theorem instElems_fst_mods (l : List ElemSegment) (offs : List Nat)
    (st : StoreManager) (mi : ModuleInstance) :
    ((instElems st mi l offs).1).mods = st.mods := by
  obtain ⟨tl, r, h⟩ := instElems_shape l offs st mi
  rw [h]

theorem instData_fst_funcs (l : List DataSegment) (offs : List Nat)
    (st : StoreManager) (mi : ModuleInstance) :
    ((instData st mi l offs).1).funcs = st.funcs := by
  obtain ⟨ml, r, h⟩ := instData_shape l offs st mi
  rw [h]

theorem instExports_shape (l : List ExportDesc) :
    ∀ mi, ∃ em r, instExports mi l = ({ mi with exportsMap := em }, r) := by
  induction l with
  | nil => exact fun mi => ⟨mi.exportsMap, Except.ok (), rfl⟩
  | cons e rest ih =>
    intro mi
    rw [instExports]
    cases hf : mi.findExport e.extName with
    | some p => exact ⟨mi.exportsMap, Except.error ErrCode.DuplicateExportName, by simp⟩
    | none =>
      obtain ⟨em, r, h⟩ := ih (mi.addExportEntry e.extName e.extType e.extIdx)
      refine ⟨em, r, ?_⟩
      simp [ModuleInstance.addExportEntry, hf] at h ⊢
      exact h

/-! Lemmas about `pipeStep` and the section-dispatch step wrappers. -/

theorem pipeStep_elim
    (P : StoreManager × Interp × Except ErrCode ModuleInstance → Prop)
    (addr : Nat) (it : Interp)
    (r : StoreManager × ModuleInstance × Except ErrCode Unit)
    (k : StoreManager → ModuleInstance →
      StoreManager × Interp × Except ErrCode ModuleInstance)
    (hE : ∀ e, r.2.2 = Except.error e →
      P (r.1.updateModule addr r.2.1, it, Except.error e))
    (hO : r.2.2 = Except.ok () → P (k (r.1.updateModule addr r.2.1) r.2.1)) :
    P (pipeStep addr it r k) := by
  rw [pipeStep]
  cases hr : r.2.2 with
  | error e => exact hE e hr
  | ok u => cases u; exact hO hr

theorem pipeStep_okRes (addr : Nat) (it : Interp)
    (r : StoreManager × ModuleInstance × Except ErrCode Unit)
    (k : StoreManager → ModuleInstance →
      StoreManager × Interp × Except ErrCode ModuleInstance)
    (hr : r.2.2 = Except.ok ()) :
    pipeStep addr it r k = k (r.1.updateModule addr r.2.1) r.2.1 := by
  rw [pipeStep, hr]

theorem stepImports_fst (st : StoreManager) (mi : ModuleInstance) (m : Module) :
    (stepImports st mi m).1 = st := by
  cases h : m.importSec <;> simp [stepImports, h]

theorem stepFuncCode_skip (st : StoreManager) (mi : ModuleInstance) (m : Module)
    (h : m.funcSec = none ∨ m.codeSec = none) :
    stepFuncCode st mi m = (st, mi, Except.ok ()) := by
  rcases h with h | h
  · simp [stepFuncCode, h]
  · cases hf : m.funcSec <;> simp [stepFuncCode, h, hf]

theorem stepFuncCode_res (st : StoreManager) (mi : ModuleInstance) (m : Module) :
    (stepFuncCode st mi m).2.2 = Except.ok () := by
  cases hf : m.funcSec <;> cases hc : m.codeSec <;>
    simp [stepFuncCode, hf, hc, instFuncCode_res]

theorem stepGlobals_fst_funcs (st : StoreManager) (mi : ModuleInstance)
    (m : Module) : ((stepGlobals st mi m).1).funcs = st.funcs := by
  cases h : m.globalSec <;> simp [stepGlobals, h, instGlobals_fst_funcs]

theorem stepTables_res (st : StoreManager) (mi : ModuleInstance) (m : Module) :
    (stepTables st mi m).2.2 = Except.ok () := by
  cases h : m.tableSec <;> simp [stepTables, h, instTables_res]

theorem stepTables_fst_funcs (st : StoreManager) (mi : ModuleInstance)
    (m : Module) : ((stepTables st mi m).1).funcs = st.funcs := by
  cases h : m.tableSec <;> simp [stepTables, h, instTables_fst_funcs]

theorem stepMems_res (st : StoreManager) (mi : ModuleInstance) (m : Module) :
    (stepMems st mi m).2.2 = Except.ok () := by
  cases h : m.memSec <;> simp [stepMems, h, instMems_res]

theorem stepMems_fst_funcs (st : StoreManager) (mi : ModuleInstance)
    (m : Module) : ((stepMems st mi m).1).funcs = st.funcs := by
  cases h : m.memSec <;> simp [stepMems, h, instMems_fst_funcs]

theorem stepElems_fst_funcs (st : StoreManager) (mi : ModuleInstance)
    (m : Module) (offs : List Nat) :
    ((stepElems st mi m offs).1).funcs = st.funcs := by
  cases h : m.elemSec <;> simp [stepElems, h, instElems_fst_funcs]

theorem stepData_fst_funcs (st : StoreManager) (mi : ModuleInstance)
    (m : Module) (offs : List Nat) :
    ((stepData st mi m offs).1).funcs = st.funcs := by
  cases h : m.dataSec <;> simp [stepData, h, instData_fst_funcs]

theorem stepExports_fst (st : StoreManager) (mi : ModuleInstance) (m : Module) :
    (stepExports st mi m).1 = st := by
  cases h : m.exportSec <;> simp [stepExports, h]

theorem pipeStep_okLit (addr : Nat) (it : Interp) (st : StoreManager)
    (mi : ModuleInstance)
    (k : StoreManager → ModuleInstance →
      StoreManager × Interp × Except ErrCode ModuleInstance) :
    pipeStep addr it (st, mi, Except.ok ()) k = k (st.updateModule addr mi) mi :=
  rfl

theorem stepImports_skip (st : StoreManager) (mi : ModuleInstance) (m : Module)
    (h : m.importSec = none) : stepImports st mi m = (st, mi, Except.ok ()) := by
  simp [stepImports, h]

theorem stepGlobals_skip (st : StoreManager) (mi : ModuleInstance) (m : Module)
    (h : m.globalSec = none) : stepGlobals st mi m = (st, mi, Except.ok ()) := by
  simp [stepGlobals, h]

theorem stepTables_skip (st : StoreManager) (mi : ModuleInstance) (m : Module)
    (h : m.tableSec = none) : stepTables st mi m = (st, mi, Except.ok ()) := by
  simp [stepTables, h]

theorem stepMems_skip (st : StoreManager) (mi : ModuleInstance) (m : Module)
    (h : m.memSec = none) : stepMems st mi m = (st, mi, Except.ok ()) := by
  simp [stepMems, h]

theorem stepElemOffsets_skip (st : StoreManager) (mi : ModuleInstance)
    (m : Module) (h : m.elemSec = none) :
    stepElemOffsets st mi m = Except.ok [] := by
  simp [stepElemOffsets, h]

theorem stepDataOffsets_skip (st : StoreManager) (mi : ModuleInstance)
    (m : Module) (h : m.dataSec = none) :
    stepDataOffsets st mi m = Except.ok [] := by
  simp [stepDataOffsets, h]

theorem stepElems_skip (st : StoreManager) (mi : ModuleInstance) (m : Module)
    (offs : List Nat) (h : m.elemSec = none) :
    stepElems st mi m offs = (st, mi, Except.ok ()) := by
  simp [stepElems, h]

theorem stepData_skip (st : StoreManager) (mi : ModuleInstance) (m : Module)
    (offs : List Nat) (h : m.dataSec = none) :
    stepData st mi m offs = (st, mi, Except.ok ()) := by
  simp [stepData, h]

theorem stepExports_skip (st : StoreManager) (mi : ModuleInstance) (m : Module)
    (h : m.exportSec = none) : stepExports st mi m = (st, mi, Except.ok ()) := by
  simp [stepExports, h]

theorem pipeStep_errLit (addr : Nat) (it : Interp) (st : StoreManager)
    (mi : ModuleInstance) (e : ErrCode)
    (k : StoreManager → ModuleInstance →
      StoreManager × Interp × Except ErrCode ModuleInstance) :
    pipeStep addr it (st, mi, Except.error e) k =
      (st.updateModule addr mi, it, Except.error e) :=
  rfl

theorem stepFuncCode_fst_tables (st : StoreManager) (mi : ModuleInstance)
    (m : Module) : ((stepFuncCode st mi m).1).tables = st.tables := by
  cases hf : m.funcSec <;> cases hc : m.codeSec <;>
    simp [stepFuncCode, hf, hc, instFuncCode_fst_tables]

theorem stepFuncCode_fst_mems (st : StoreManager) (mi : ModuleInstance)
    (m : Module) : ((stepFuncCode st mi m).1).mems = st.mems := by
  cases hf : m.funcSec <;> cases hc : m.codeSec <;>
    simp [stepFuncCode, hf, hc, instFuncCode_fst_mems]

theorem stepFuncCode_fst_globals (st : StoreManager) (mi : ModuleInstance)
    (m : Module) : ((stepFuncCode st mi m).1).globals = st.globals := by
  cases hf : m.funcSec <;> cases hc : m.codeSec <;>
    simp [stepFuncCode, hf, hc, instFuncCode_fst_globals]

theorem stepFuncCode_fst_mods (st : StoreManager) (mi : ModuleInstance)
    (m : Module) : ((stepFuncCode st mi m).1).mods = st.mods := by
  cases hf : m.funcSec <;> cases hc : m.codeSec <;>
    simp [stepFuncCode, hf, hc, instFuncCode_fst_mods]

theorem stepFuncCode_snd_exportsMap (st : StoreManager) (mi : ModuleInstance)
    (m : Module) : ((stepFuncCode st mi m).2.1).exportsMap = mi.exportsMap := by
  cases hf : m.funcSec <;> cases hc : m.codeSec <;>
    simp [stepFuncCode, hf, hc, instFuncCode_snd_exportsMap]

theorem stepFuncCode_snd_tableAddrs (st : StoreManager) (mi : ModuleInstance)
    (m : Module) : ((stepFuncCode st mi m).2.1).tableAddrs = mi.tableAddrs := by
  cases hf : m.funcSec <;> cases hc : m.codeSec <;>
    simp [stepFuncCode, hf, hc, instFuncCode_snd_tableAddrs]

theorem stepMems_fst_tables (st : StoreManager) (mi : ModuleInstance)
    (m : Module) : ((stepMems st mi m).1).tables = st.tables := by
  cases h : m.memSec <;> simp [stepMems, h, instMems_fst_tables]

theorem stepMems_fst_mods (st : StoreManager) (mi : ModuleInstance)
    (m : Module) : ((stepMems st mi m).1).mods = st.mods := by
  cases h : m.memSec <;> simp [stepMems, h, instMems_fst_mods]

theorem stepMems_snd_exportsMap (st : StoreManager) (mi : ModuleInstance)
    (m : Module) : ((stepMems st mi m).2.1).exportsMap = mi.exportsMap := by
  cases h : m.memSec <;> simp [stepMems, h, instMems_snd_exportsMap]

theorem stepMems_snd_tableAddrs (st : StoreManager) (mi : ModuleInstance)
    (m : Module) : ((stepMems st mi m).2.1).tableAddrs = mi.tableAddrs := by
  cases h : m.memSec <;> simp [stepMems, h, instMems_snd_tableAddrs]

/-- A global section whose first initializer starts with a non-constant
opcode fails `InvalidInitializer` immediately, touching nothing. -/
theorem stepGlobals_head_invalid (st : StoreManager) (mi : ModuleInstance)
    (m : Module) (gt : GlobalType) (op : Nat) (gs : List GlobalSegment)
    (hG : m.globalSec = some ({ globalType := gt, expr := [Instr.other op] } :: gs)) :
    stepGlobals st mi m = (st, mi, Except.error ErrCode.InvalidInitializer) := by
  simp [stepGlobals, hG, instGlobals, evalExpression, evalInstrs, evalInstr]

/-- The first import descriptor fails `UnknownImport` when its module name
does not resolve, or resolves to a module without the wanted export. -/
theorem stepImports_head_unknown (st : StoreManager) (mi : ModuleInstance)
    (m : Module) (d : ImportDesc) (ds : List ImportDesc)
    (hI : m.importSec = some (d :: ds))
    (hfm : ∀ a, st.findModule d.modName = some a →
      ∃ tgt, st.getModule a = some tgt ∧ tgt.findExport d.extName = none) :
    (stepImports st mi m).2.2 = Except.error ErrCode.UnknownImport := by
  simp only [stepImports, hI]
  rw [instImports]
  cases hf : st.findModule d.modName with
  | none => simp [matchImport, hf]
  | some a =>
    obtain ⟨tgt, hg, he⟩ := hfm a hf
    simp [matchImport, hf, hg, he]

theorem pipeStep_stepFuncCode (addr : Nat) (it : Interp) (st : StoreManager)
    (mi : ModuleInstance) (m : Module)
    (k : StoreManager → ModuleInstance →
      StoreManager × Interp × Except ErrCode ModuleInstance) :
    pipeStep addr it (stepFuncCode st mi m) k =
      k ((stepFuncCode st mi m).1.updateModule addr (stepFuncCode st mi m).2.1)
        (stepFuncCode st mi m).2.1 :=
  pipeStep_okRes _ _ _ _ (stepFuncCode_res _ _ _)

theorem pipeStep_stepTables (addr : Nat) (it : Interp) (st : StoreManager)
    (mi : ModuleInstance) (m : Module)
    (k : StoreManager → ModuleInstance →
      StoreManager × Interp × Except ErrCode ModuleInstance) :
    pipeStep addr it (stepTables st mi m) k =
      k ((stepTables st mi m).1.updateModule addr (stepTables st mi m).2.1)
        (stepTables st mi m).2.1 :=
  pipeStep_okRes _ _ _ _ (stepTables_res _ _ _)

theorem pipeStep_stepMems (addr : Nat) (it : Interp) (st : StoreManager)
    (mi : ModuleInstance) (m : Module)
    (k : StoreManager → ModuleInstance →
      StoreManager × Interp × Except ErrCode ModuleInstance) :
    pipeStep addr it (stepMems st mi m) k =
      k ((stepMems st mi m).1.updateModule addr (stepMems st mi m).2.1)
        (stepMems st mi m).2.1 :=
  pipeStep_okRes _ _ _ _ (stepMems_res _ _ _)

/-- A module whose sections past Function/Code are all absent always gets
through the pipeline before the start step. -/
theorem instantiatePre_minimal_ok (st0 : StoreManager) (it0 : Interp)
    (mod : Module) (name : String)
    (hI : mod.importSec = none) (hG : mod.globalSec = none)
    (hT : mod.tableSec = none) (hM : mod.memSec = none)
    (hEl : mod.elemSec = none) (hD : mod.dataSec = none)
    (hX : mod.exportSec = none) :
    ∃ mi, (Interpreter.instantiatePre st0 it0 mod name).2.2 = Except.ok mi := by
  rw [Interpreter.instantiatePre]
  simp only [StoreManager.reset, StoreManager.findModule, lookupName]
  cases hm : it0.insMode <;>
    simp only [StoreManager.pushModule, StoreManager.importModule,
      StoreManager.getModule, ModuleInstance.mkNamed, List.nil_append,
      List.length_nil, List.get?, Option.getD] <;>
  · simp only [stepImports_skip, hI, stepGlobals_skip, hG, stepTables_skip, hT,
      stepMems_skip, hM, stepElemOffsets_skip, hEl, stepDataOffsets_skip, hD,
      stepElems_skip, stepData_skip, stepExports_skip, hX,
      pipeStep_okLit, pipeStep_stepFuncCode]
    exact ⟨_, rfl⟩

/-- When the Function and Code sections are not both present, the
local-function allocation step contributes nothing, and since no other
pipeline step allocates functions, the Store's function arena is empty
when `instantiatePre` returns, whatever else happens. -/
theorem instantiatePre_funcs (st0 : StoreManager) (it0 : Interp) (mod : Module)
    (name : String) (h : mod.funcSec = none ∨ mod.codeSec = none) :
    ((Interpreter.instantiatePre st0 it0 mod name).1).funcs = [] := by
  rw [Interpreter.instantiatePre]
  simp only [StoreManager.reset, StoreManager.findModule, lookupName]
  cases hm : it0.insMode <;>
    simp only [StoreManager.pushModule, StoreManager.importModule,
      StoreManager.getModule, ModuleInstance.mkNamed, List.nil_append,
      List.length_nil, List.get?, Option.getD] <;>
  · refine pipeStep_elim (fun t => (t.1).funcs = []) _ _ _ _ ?_ ?_
    · intro e he
      simp [StoreManager.updateModule, stepImports_fst]
    · intro _
      rw [stepFuncCode_skip _ _ _ h]
      refine pipeStep_elim (fun t => (t.1).funcs = []) _ _ _ _ ?_ ?_
      · intro e he
        simp at he
      · intro _
        refine pipeStep_elim (fun t => (t.1).funcs = []) _ _ _ _ ?_ ?_
        · intro e he
          simp [StoreManager.updateModule, stepGlobals_fst_funcs,
            stepImports_fst]
        · intro _
          rw [pipeStep_okRes _ _ _ _ (stepTables_res _ _ _),
            pipeStep_okRes _ _ _ _ (stepMems_res _ _ _)]
          split
          · simp [StoreManager.updateModule, stepMems_fst_funcs,
              stepTables_fst_funcs, stepGlobals_fst_funcs, stepImports_fst]
          · split
            · simp [StoreManager.updateModule, stepMems_fst_funcs,
                stepTables_fst_funcs, stepGlobals_fst_funcs, stepImports_fst]
            · refine pipeStep_elim (fun t => (t.1).funcs = []) _ _ _ _ ?_ ?_
              · intro e he
                simp [StoreManager.updateModule, stepElems_fst_funcs,
                  stepMems_fst_funcs, stepTables_fst_funcs,
                  stepGlobals_fst_funcs, stepImports_fst]
              · intro _
                refine pipeStep_elim (fun t => (t.1).funcs = []) _ _ _ _ ?_ ?_
                · intro e he
                  simp [StoreManager.updateModule, stepData_fst_funcs,
                    stepElems_fst_funcs, stepMems_fst_funcs,
                    stepTables_fst_funcs, stepGlobals_fst_funcs,
                    stepImports_fst]
                · intro _
                  refine pipeStep_elim (fun t => (t.1).funcs = []) _ _ _ _ ?_ ?_
                  · intro e he
                    simp [StoreManager.updateModule, stepExports_fst,
                      stepData_fst_funcs, stepElems_fst_funcs,
                      stepMems_fst_funcs, stepTables_fst_funcs,
                      stepGlobals_fst_funcs, stepImports_fst]
                  · intro _
                    simp [StoreManager.updateModule, stepExports_fst,
                      stepData_fst_funcs, stepElems_fst_funcs,
                      stepMems_fst_funcs, stepTables_fst_funcs,
                      stepGlobals_fst_funcs, stepImports_fst]

/-- An `instantiate` whose pipeline fails before the start step does not
depend on the interpreter used for the start function. -/
theorem instantiate_runF_indep (runF runF' : RunFunc) (st0 : StoreManager)
    (it0 : Interp) (mod : Module) (name : String)
    (h : ∃ e, (Interpreter.instantiatePre st0 it0 mod name).2.2 =
      Except.error e) :
    Interpreter.instantiate runF st0 it0 mod name =
      Interpreter.instantiate runF' st0 it0 mod name := by
  obtain ⟨e, h⟩ := h
  rw [Interpreter.instantiate, Interpreter.instantiate]
  simp only [h]

/-- A nonempty import section always fails `UnknownImport` in this code:
the Store was reset at entry, so the only module it can hold is the
fresh instance itself, which exports nothing yet. The pipeline stops
before allocating anything and before pushing the synthetic frame. -/
theorem instantiatePre_import_fails (st0 : StoreManager) (it0 : Interp)
    (mod : Module) (name : String) (d : ImportDesc) (ds : List ImportDesc)
    (hI : mod.importSec = some (d :: ds)) :
    ∃ st' it', Interpreter.instantiatePre st0 it0 mod name =
      (st', it', Except.error ErrCode.UnknownImport) ∧
      st'.globals = [] ∧ st'.tables = [] ∧ st'.mems = [] ∧
      it'.stackMgr = [] := by
  rw [Interpreter.instantiatePre]
  simp only [StoreManager.reset, StoreManager.findModule, lookupName]
  cases hm : it0.insMode <;> cases hts : mod.typeSec <;>
    simp only [StoreManager.pushModule, StoreManager.importModule,
      StoreManager.getModule, ModuleInstance.mkNamed, List.nil_append,
      List.length_nil, List.get?, Option.getD] <;>
  · refine pipeStep_elim
      (fun t => ∃ st' it', t = (st', it', Except.error ErrCode.UnknownImport) ∧
        st'.globals = [] ∧ st'.tables = [] ∧ st'.mems = [] ∧
        it'.stackMgr = []) _ _ _ _ ?_ ?_
    · intro e he
      by_cases hdm : name = d.modName <;>
        simp [stepImports, hI, instImports, matchImport, StoreManager.findModule,
          lookupName, hdm, StoreManager.updateModule, StoreManager.getModule,
          ModuleInstance.findExport, instTypes_exportsMap] at he <;>
      · subst he
        refine ⟨_, _, rfl, ?_, ?_, ?_, rfl⟩ <;>
          simp [StoreManager.updateModule, stepImports_fst]
    · intro hok
      by_cases hdm : name = d.modName <;>
        simp [stepImports, hI, instImports, matchImport, StoreManager.findModule,
          lookupName, hdm, StoreManager.updateModule, StoreManager.getModule,
          ModuleInstance.findExport, instTypes_exportsMap] at hok

/-- A global section whose first initializer is non-constant fails
`InvalidInitializer` before any table or memory is allocated, before any
global is allocated, and before the synthetic frame is pushed. -/
theorem instantiatePre_global_fails (st0 : StoreManager) (it0 : Interp)
    (mod : Module) (name : String) (gt : GlobalType) (op : Nat)
    (gs : List GlobalSegment) (hI : mod.importSec = none)
    (hG : mod.globalSec =
      some ({ globalType := gt, expr := [Instr.other op] } :: gs)) :
    ∃ st' it', Interpreter.instantiatePre st0 it0 mod name =
      (st', it', Except.error ErrCode.InvalidInitializer) ∧
      st'.tables = [] ∧ st'.mems = [] ∧ st'.globals = [] ∧
      it'.stackMgr = [] := by
  rw [Interpreter.instantiatePre]
  simp only [StoreManager.reset, StoreManager.findModule, lookupName]
  cases hm : it0.insMode <;>
    simp only [StoreManager.pushModule, StoreManager.importModule,
      StoreManager.getModule, ModuleInstance.mkNamed, List.nil_append,
      List.length_nil, List.get?, Option.getD] <;>
  · simp only [stepImports_skip, hI, pipeStep_okLit, pipeStep_stepFuncCode,
      stepGlobals_head_invalid _ _ _ gt op gs hG, pipeStep_errLit]
    refine ⟨_, _, rfl, ?_, ?_, ?_, rfl⟩ <;>
      simp [StoreManager.updateModule, stepFuncCode_fst_tables,
        stepFuncCode_fst_mems, stepFuncCode_fst_globals]

/-- An element segment whose offset exceeds the freshly allocated table's
capacity fails `TableOutOfRange` after the frame was pushed and popped and
before any export is published: every module instance in the returned
Store has an empty export map. -/
theorem instantiatePre_elem_oob (st0 : StoreManager) (it0 : Interp)
    (mod : Module) (name : String) (tt : TableType) (off : Nat)
    (fns : List Nat) (hI : mod.importSec = none) (hG : mod.globalSec = none)
    (hD : mod.dataSec = none) (hT : mod.tableSec = some [tt])
    (hEl : mod.elemSec =
      some [{ tableIdx := 0, offsetExpr := [Instr.i32const off], funcIdxs := fns }])
    (hb : tt.limit.getMin < off + fns.length) :
    ∃ st' it', Interpreter.instantiatePre st0 it0 mod name =
      (st', it', Except.error ErrCode.TableOutOfRange) ∧
      (∀ mim ∈ st'.mods, mim.exportsMap = []) ∧ it'.stackMgr = [] := by
  rw [Interpreter.instantiatePre]
  simp only [StoreManager.reset, StoreManager.findModule, lookupName]
  cases hm : it0.insMode <;> cases hts : mod.typeSec <;>
    simp only [StoreManager.pushModule, StoreManager.importModule,
      StoreManager.getModule, ModuleInstance.mkNamed, List.nil_append,
      List.length_nil, List.get?, Option.getD] <;>
  · simp only [stepImports_skip, hI, pipeStep_okLit, pipeStep_stepFuncCode,
      stepGlobals_skip, hG, stepTables, hT, instTables,
      StoreManager.allocTable, ModuleInstance.addTableAddr,
      pipeStep_stepMems, stepElemOffsets, hEl, resolveElemOffsets,
      evalExpression, evalInstrs, evalInstr, stepDataOffsets_skip, hD,
      stepElems, instElems, stepMems_snd_tableAddrs,
      stepFuncCode_snd_tableAddrs, instTypes_tableAddrs,
      StoreManager.updateModule, StoreManager.getTable, stepMems_fst_tables,
      stepFuncCode_fst_tables, List.set, List.get?, List.length_replicate,
      show ¬(off + fns.length ≤ tt.limit.getMin) from by omega,
      pipeStep_errLit]
    refine ⟨_, _, rfl, ?_, ?_⟩
    · simp [StoreManager.updateModule, stepMems_fst_mods,
        stepFuncCode_fst_mods, List.set, stepMems_snd_exportsMap,
        stepFuncCode_snd_exportsMap, instTypes_exportsMap]
    · simp [pushFrame, popFrame]

/-- An export section carrying two exports of the same name fails
`DuplicateExportName` (before the start function could ever run). -/
theorem instantiatePre_dup_export (st0 : StoreManager) (it0 : Interp)
    (mod : Module) (name : String) (e1 e2 : ExportDesc) (es : List ExportDesc)
    (hI : mod.importSec = none) (hG : mod.globalSec = none)
    (hT : mod.tableSec = none) (hEl : mod.elemSec = none)
    (hD : mod.dataSec = none) (hX : mod.exportSec = some (e1 :: e2 :: es))
    (hdup : e2.extName = e1.extName) :
    ∃ st' it', Interpreter.instantiatePre st0 it0 mod name =
      (st', it', Except.error ErrCode.DuplicateExportName) := by
  rw [Interpreter.instantiatePre]
  simp only [StoreManager.reset, StoreManager.findModule, lookupName]
  cases hm : it0.insMode <;> cases hts : mod.typeSec <;>
    simp only [StoreManager.pushModule, StoreManager.importModule,
      StoreManager.getModule, ModuleInstance.mkNamed, List.nil_append,
      List.length_nil, List.get?, Option.getD] <;>
  · simp only [stepImports_skip, hI, pipeStep_okLit, pipeStep_stepFuncCode,
      stepGlobals_skip, hG, stepTables_skip, hT, pipeStep_stepMems,
      stepElemOffsets_skip, hEl, stepDataOffsets_skip, hD,
      stepElems_skip, stepData_skip, stepExports, hX, instExports,
      ModuleInstance.findExport, ModuleInstance.addExportEntry, lookupName,
      stepMems_snd_exportsMap, stepFuncCode_snd_exportsMap,
      instTypes_exportsMap, hdup, List.nil_append, pipeStep_errLit]
    exact ⟨_, _, rfl⟩

/-- C5: the pipeline performs its effects in the spec's order, each step
gated on all earlier ones. Four observable consequences, over arbitrary
Stores, interpreter contexts, names and two arbitrary start-function
interpreters:
(1) import resolution precedes and gates global/table/memory allocation
and the frame push for offset evaluation: when the import step fails
(which in this code any nonempty import section does), the returned Store
has no globals, tables or memories and the stack is untouched;
(2) global allocation precedes offset evaluation: a failing global
initializer leaves no table or memory allocated and no frame pushed;
(3) element application precedes export publication: a failing element
write leaves every instance in the Store without exports;
(4) export publication precedes the start function: a duplicate export
name fails and the result does not depend on the start-function
interpreter at all — in every failing case the two interpreters give
identical results, showing the start step never ran. -/
theorem instantiate_pipeline_order (runF runF' : RunFunc) (st0 : StoreManager)
    (it0 : Interp) (name : String) :
    (∀ (mod : Module) (d : ImportDesc) (ds : List ImportDesc),
      mod.importSec = some (d :: ds) →
      (Interpreter.instantiate runF st0 it0 mod name).2.2 =
        Except.error ErrCode.UnknownImport ∧
      ((Interpreter.instantiate runF st0 it0 mod name).1).globals = [] ∧
      ((Interpreter.instantiate runF st0 it0 mod name).1).tables = [] ∧
      ((Interpreter.instantiate runF st0 it0 mod name).1).mems = [] ∧
      ((Interpreter.instantiate runF st0 it0 mod name).2.1).stackMgr = [] ∧
      Interpreter.instantiate runF st0 it0 mod name =
        Interpreter.instantiate runF' st0 it0 mod name) ∧
    (∀ (mod : Module) (gt : GlobalType) (op : Nat) (gs : List GlobalSegment),
      mod.importSec = none →
      mod.globalSec = some ({ globalType := gt, expr := [Instr.other op] } :: gs) →
      (Interpreter.instantiate runF st0 it0 mod name).2.2 =
        Except.error ErrCode.InvalidInitializer ∧
      ((Interpreter.instantiate runF st0 it0 mod name).1).tables = [] ∧
      ((Interpreter.instantiate runF st0 it0 mod name).1).mems = [] ∧
      ((Interpreter.instantiate runF st0 it0 mod name).1).globals = [] ∧
      ((Interpreter.instantiate runF st0 it0 mod name).2.1).stackMgr = [] ∧
      Interpreter.instantiate runF st0 it0 mod name =
        Interpreter.instantiate runF' st0 it0 mod name) ∧
    (∀ (mod : Module) (tt : TableType) (off : Nat) (fns : List Nat),
      mod.importSec = none → mod.globalSec = none → mod.dataSec = none →
      mod.tableSec = some [tt] →
      mod.elemSec =
        some [{ tableIdx := 0, offsetExpr := [Instr.i32const off], funcIdxs := fns }] →
      tt.limit.getMin < off + fns.length →
      (Interpreter.instantiate runF st0 it0 mod name).2.2 =
        Except.error ErrCode.TableOutOfRange ∧
      (∀ mim ∈ ((Interpreter.instantiate runF st0 it0 mod name).1).mods,
        mim.exportsMap = []) ∧
      Interpreter.instantiate runF st0 it0 mod name =
        Interpreter.instantiate runF' st0 it0 mod name) ∧
    (∀ (mod : Module) (e1 e2 : ExportDesc) (es : List ExportDesc),
      mod.importSec = none → mod.globalSec = none → mod.tableSec = none →
      mod.elemSec = none → mod.dataSec = none →
      mod.exportSec = some (e1 :: e2 :: es) → e2.extName = e1.extName →
      (Interpreter.instantiate runF st0 it0 mod name).2.2 =
        Except.error ErrCode.DuplicateExportName ∧
      Interpreter.instantiate runF st0 it0 mod name =
        Interpreter.instantiate runF' st0 it0 mod name) := by
  refine ⟨?_, ?_, ?_, ?_⟩
  · intro mod d ds hI
    obtain ⟨st', it', hpre, hg, ht, hm2, hstk⟩ :=
      instantiatePre_import_fails st0 it0 mod name d ds hI
    have hres : Interpreter.instantiate runF st0 it0 mod name =
        (st', it', Except.error ErrCode.UnknownImport) := by
      rw [Interpreter.instantiate]
      simp only [hpre]
    rw [hres]
    refine ⟨rfl, hg, ht, hm2, hstk, ?_⟩
    rw [← hres]
    exact instantiate_runF_indep runF runF' st0 it0 mod name ⟨_, by rw [hpre]⟩
  · intro mod gt op gs hI hG
    obtain ⟨st', it', hpre, ht, hm2, hg, hstk⟩ :=
      instantiatePre_global_fails st0 it0 mod name gt op gs hI hG
    have hres : Interpreter.instantiate runF st0 it0 mod name =
        (st', it', Except.error ErrCode.InvalidInitializer) := by
      rw [Interpreter.instantiate]
      simp only [hpre]
    rw [hres]
    refine ⟨rfl, ht, hm2, hg, hstk, ?_⟩
    rw [← hres]
    exact instantiate_runF_indep runF runF' st0 it0 mod name ⟨_, by rw [hpre]⟩
  · intro mod tt off fns hI hG hD hT hEl hb
    obtain ⟨st', it', hpre, hex, hstk⟩ :=
      instantiatePre_elem_oob st0 it0 mod name tt off fns hI hG hD hT hEl hb
    have hres : Interpreter.instantiate runF st0 it0 mod name =
        (st', it', Except.error ErrCode.TableOutOfRange) := by
      rw [Interpreter.instantiate]
      simp only [hpre]
    rw [hres]
    refine ⟨rfl, hex, ?_⟩
    rw [← hres]
    exact instantiate_runF_indep runF runF' st0 it0 mod name ⟨_, by rw [hpre]⟩
  · intro mod e1 e2 es hI hG hT hEl hD hX hdup
    obtain ⟨st', it', hpre⟩ :=
      instantiatePre_dup_export st0 it0 mod name e1 e2 es hI hG hT hEl hD hX hdup
    have hres : Interpreter.instantiate runF st0 it0 mod name =
        (st', it', Except.error ErrCode.DuplicateExportName) := by
      rw [Interpreter.instantiate]
      simp only [hpre]
    rw [hres]
    refine ⟨rfl, ?_⟩
    rw [← hres]
    exact instantiate_runF_indep runF runF' st0 it0 mod name ⟨_, by rw [hpre]⟩

/-- C5 witness: the four gating consequences at concrete modules on the
empty Store: a dangling import, a non-constant global initializer, an
oversized element segment, and a duplicated export name. -/
theorem instantiate_pipeline_order_witness :
    (Interpreter.instantiate runF0 StoreManager.empty interp0 modImportMissing
      "w").2.2 = Except.error ErrCode.UnknownImport ∧
    (Interpreter.instantiate runF0 StoreManager.empty interp0 modBadGlobalInit
      "w").2.2 = Except.error ErrCode.InvalidInitializer ∧
    (Interpreter.instantiate runF0 StoreManager.empty interp0 modElemOutOfRange
      "w").2.2 = Except.error ErrCode.TableOutOfRange ∧
    (Interpreter.instantiate runF0 StoreManager.empty interp0 modDupExport
      "w").2.2 = Except.error ErrCode.DuplicateExportName := by
  have h := instantiate_pipeline_order runF0 runF0 StoreManager.empty interp0 "w"
  exact ⟨(h.1 modImportMissing _ _ rfl).1,
    (h.2.1 modBadGlobalInit _ 9 [] rfl rfl).1,
    (h.2.2.1 modElemOutOfRange _ 0 [5, 6] rfl rfl rfl rfl rfl (by decide)).1,
    (h.2.2.2 modDupExport _ _ [] rfl rfl rfl rfl rfl rfl rfl).1⟩

/-- C9: the local-function allocation of lines 53-60 runs only when both the
Function and the Code section are present. If either is missing, no local
function is ever allocated — for any module and Store, the returned
Store's function arena is empty (provided the start-function interpreter
does not itself allocate functions) — and no error is reported for the
missing pair: with the sections past Function/Code absent, instantiation
succeeds outright. -/
theorem funcsec_without_codesec_skipped (runF : RunFunc) (st0 : StoreManager)
    (it0 : Interp) (mod : Module) (name : String)
    (h : mod.funcSec = none ∨ mod.codeSec = none)
    (hrf : ∀ s k f a, ((runF s k f a).1).funcs = s.funcs) :
    ((Interpreter.instantiate runF st0 it0 mod name).1).funcs = [] ∧
    (mod.importSec = none → mod.globalSec = none → mod.tableSec = none →
      mod.memSec = none → mod.elemSec = none → mod.dataSec = none →
      mod.exportSec = none → mod.startSec = none →
      (Interpreter.instantiate runF st0 it0 mod name).2.2 = Except.ok ()) := by
  constructor
  · rw [Interpreter.instantiate]
    cases hr : (Interpreter.instantiatePre st0 it0 mod name).2.2 with
    | error e =>
      simp only [hr]
      exact instantiatePre_funcs st0 it0 mod name h
    | ok mi =>
      simp only [hr]
      cases hs : mod.startSec with
      | none => exact instantiatePre_funcs st0 it0 mod name h
      | some idx =>
        simp only [hrf, StoreManager.updateModule]
        exact instantiatePre_funcs st0 it0 mod name h
  · intro hI hG hT hM hEl hD hX hS
    obtain ⟨mi, hok⟩ :=
      instantiatePre_minimal_ok st0 it0 mod name hI hG hT hM hEl hD hX
    rw [Interpreter.instantiate]
    simp only [hok, hS]

/-- C9 witness: a module with only a Function section (`modFuncNoCode`),
instantiated on the empty Store with the trivial interpreter, succeeds and
allocates no function. -/
theorem funcsec_without_codesec_skipped_witness :
    ((Interpreter.instantiate runF0 StoreManager.empty interp0 modFuncNoCode
        "m").1).funcs = [] ∧
    (Interpreter.instantiate runF0 StoreManager.empty interp0 modFuncNoCode
        "m").2.2 = Except.ok () := by
  have h := funcsec_without_codesec_skipped runF0 StoreManager.empty interp0
    modFuncNoCode "m" (Or.inr rfl) (fun s k f a => rfl)
  exact ⟨h.1, h.2 rfl rfl rfl rfl rfl rfl rfl rfl⟩

/-- C6: lines 147-160 of `Interpreter::instantiate`. After the pipeline
through export publication and the ctor hook succeeds: with no Start
section, `instantiate` returns success with that state unchanged; with a
Start section referencing local function index `idx`, the index is
recorded in the instance and resolved through the instance's function
space to the Store address `a`, the function instance at `a` is fetched,
and the main interpreter `runF` is invoked on it with the empty argument
vector — `instantiate` returns exactly `runF`'s resulting Store, stack
and outcome, so a trap (error) from the start function propagates as the
failure of `instantiate`. -/
theorem instantiate_start_function_step (runF : RunFunc) (st0 : StoreManager)
    (it0 : Interp) (mod : Module) (name : String) (st1 : StoreManager)
    (it1 : Interp) (mi : ModuleInstance)
    (hpre : Interpreter.instantiatePre st0 it0 mod name =
      (st1, it1, Except.ok mi)) :
    (mod.startSec = none →
      Interpreter.instantiate runF st0 it0 mod name = (st1, it1, Except.ok ())) ∧
    (∀ idx a fi, mod.startSec = some idx →
      (mi.setStartIdx idx).getStartAddr = some a →
      (st1.updateModule (mi.setStartIdx idx).addr (mi.setStartIdx idx)).getFunction
        a = some fi →
      Interpreter.instantiate runF st0 it0 mod name =
        ((runF (st1.updateModule (mi.setStartIdx idx).addr (mi.setStartIdx idx))
            it1.stackMgr fi []).1,
         { it1 with
            stackMgr := (runF (st1.updateModule (mi.setStartIdx idx).addr
              (mi.setStartIdx idx)) it1.stackMgr fi []).2.1 },
         (runF (st1.updateModule (mi.setStartIdx idx).addr (mi.setStartIdx idx))
            it1.stackMgr fi []).2.2)) := by
  constructor
  · intro hs
    simp [Interpreter.instantiate, hpre, hs]
  · intro idx a fi hs ha hf
    simp [Interpreter.instantiate, hpre, hs, ha, hf]

/-- C6 witness: `modWithStart` (one empty-signature local function designated
as start) instantiated on the empty Store: the pipeline succeeds, the start
index 0 resolves through the instance to Store address 0, and running it
through the trivial interpreter yields overall success. -/
theorem instantiate_start_function_step_witness :
    (Interpreter.instantiate runF0 StoreManager.empty interp0 modWithStart
      "m").2.2 = Except.ok () := by
  have h := (instantiate_start_function_step runF0 StoreManager.empty interp0
    modWithStart "m"
    { funcs := [{ modAddr := 0, typeIdx := 0, body := [Instr.other 0] }],
      mods := [{ name := "m", addr := 0,
                 funcTypes := [{ paramTypes := [], returnTypes := [] }],
                 funcAddrs := [0] }],
      instNames := [("m", 0)] }
    { stackMgr := [], instrScratch := [],
      insMode := InstantiateMode.Instantiate }
    { name := "m", addr := 0,
      funcTypes := [{ paramTypes := [], returnTypes := [] }],
      funcAddrs := [0] }
    rfl).2 0 0 { modAddr := 0, typeIdx := 0, body := [Instr.other 0] }
    rfl rfl rfl
  rw [h]
  rfl

/-- C10: the `Limit` constructors and observers round-trip: `Limit(a)` has no
max and `getMin = a`; `Limit(a, b)` has a max, `getMin = a`, `getMax = b`;
and `getMax` is total also on a max-less limit, where it returns the
residue left in the uninitialized field. -/
theorem limit_roundtrip (a b j : Nat) :
    (Limit.ofMin a j).hasMax = false ∧
    (Limit.ofMin a j).getMin = a ∧
    (Limit.ofMinMax a b).hasMax = true ∧
    (Limit.ofMinMax a b).getMin = a ∧
    (Limit.ofMinMax a b).getMax = b ∧
    (Limit.ofMin a j).getMax = j := by
  exact ⟨rfl, rfl, rfl, rfl, rfl, rfl⟩

/-- C7 counterexample: `Limit(5, 3)` is produced by a `Limit` constructor,
has a max, and violates `getMin ≤ getMax`: the constructors do not enforce
the invariant. -/
theorem limit_invariant_cex :
    (Limit.ofMinMax 5 3).hasMax = true ∧
    ¬ (Limit.ofMinMax 5 3).getMin ≤ (Limit.ofMinMax 5 3).getMax := by
  decide

/-- C7 amended: the constructors record their arguments verbatim and do not
enforce `min ≤ max`; `Limit(a)` never has a max, and a `Limit(a, b)`
satisfies the invariant exactly when the constructor arguments already
satisfy `a ≤ b`. -/
theorem limit_invariant_amended (a b j : Nat) :
    (Limit.ofMin a j).hasMax = false ∧
    (Limit.ofMinMax a b).hasMax = true ∧
    ((Limit.ofMinMax a b).getMin ≤ (Limit.ofMinMax a b).getMax ↔ a ≤ b) := by
  exact ⟨rfl, rfl, Iff.rfl⟩

/-- C8: for every import descriptor and every requested content kind,
`getExternalContent<T>` returns the payload exactly when the stored variant
alternative is the `unique_ptr<T>` one, and fails `IncompatibleImportType`
otherwise. -/
theorem getExternalContent_kind_check (d : ImportDesc) :
    ((∃ v, d.extContent = ExtContent.funcTypeIdx v ∧
        d.getExternalContentU32 = Except.ok v) ∨
      (d.getExternalContentU32 = Except.error ErrCode.IncompatibleImportType ∧
        ∀ v, d.extContent ≠ ExtContent.funcTypeIdx v)) ∧
    ((∃ v, d.extContent = ExtContent.tableType v ∧
        d.getExternalContentTable = Except.ok v) ∨
      (d.getExternalContentTable = Except.error ErrCode.IncompatibleImportType ∧
        ∀ v, d.extContent ≠ ExtContent.tableType v)) ∧
    ((∃ v, d.extContent = ExtContent.memoryType v ∧
        d.getExternalContentMemory = Except.ok v) ∨
      (d.getExternalContentMemory = Except.error ErrCode.IncompatibleImportType ∧
        ∀ v, d.extContent ≠ ExtContent.memoryType v)) ∧
    ((∃ v, d.extContent = ExtContent.globalType v ∧
        d.getExternalContentGlobal = Except.ok v) ∨
      (d.getExternalContentGlobal = Except.error ErrCode.IncompatibleImportType ∧
        ∀ v, d.extContent ≠ ExtContent.globalType v)) := by
  obtain ⟨ty, mn, en, c⟩ := d
  cases c <;>
    simp [ImportDesc.getExternalContentU32, ImportDesc.getExternalContentTable,
      ImportDesc.getExternalContentMemory, ImportDesc.getExternalContentGlobal]

/-- C1: the first line of `instantiate` calls `StoreMgr.reset()`, purging
the Store. On a Store holding a module registered as `A`, instantiating the
empty module as `B` succeeds and leaves a Store in which `A` is gone —
the claim (and spec section 4.5 step 1) says modules already registered
must remain present. -/
theorem instantiate_resets_store_despite_spec :
    storeWithA.findModule "A" = some 0 ∧
    (Interpreter.instantiate runF0 storeWithA interp0 emptyModule "B").2.2 =
      Except.ok () ∧
    (Interpreter.instantiate runF0 storeWithA interp0 emptyModule "B").1.findModule
      "A" = none := by
  exact ⟨rfl, rfl, rfl⟩

/-- C2: instantiation of a module whose element-offset initializer is
invalid fails at step 10, after the instance was placed in the Store at
step 3 — yet on return the instance is still published under its name, the
module arena still holds it, and the synthetic frame is still on the
stack: no part of the transaction is rolled back. -/
theorem instantiate_failure_not_rolled_back :
    (Interpreter.instantiate runF0 StoreManager.empty interp0 modBadElemOffset
        "M").2.2 = Except.error ErrCode.InvalidInitializer ∧
    (Interpreter.instantiate runF0 StoreManager.empty interp0 modBadElemOffset
        "M").1.findModule "M" = some 0 ∧
    (Interpreter.instantiate runF0 StoreManager.empty interp0 modBadElemOffset
        "M").1.mods.length = 1 ∧
    stackHasFrame
      (Interpreter.instantiate runF0 StoreManager.empty interp0 modBadElemOffset
        "M").2.1.stackMgr = true := by
  exact ⟨rfl, rfl, rfl, rfl⟩

/-- C3: after a successful `instantiate(name=M)` that published `M` in the
Store, a second `instantiate(name=M)` on that same Store also succeeds
instead of failing `ModuleNameConflict`: the `StoreMgr.reset()` at entry
purges the name map before the uniqueness check, which can therefore never
fire. -/
theorem second_instantiate_same_name_succeeds :
    (Interpreter.instantiate runF0 StoreManager.empty interp0 emptyModule
        "M").2.2 = Except.ok () ∧
    (Interpreter.instantiate runF0 StoreManager.empty interp0 emptyModule
        "M").1.findModule "M" = some 0 ∧
    (Interpreter.instantiate runF0
        (Interpreter.instantiate runF0 StoreManager.empty interp0 emptyModule
          "M").1 interp0 emptyModule "M").2.2 = Except.ok () := by
  exact ⟨rfl, rfl, rfl⟩

/-- C4: when a data-offset initializer fails, `instantiate` returns without
popping the synthetic frame pushed for offset resolution: the frame is
still on the stack after the call. -/
theorem offset_failure_retains_synthetic_frame :
    (Interpreter.instantiate runF0 StoreManager.empty interp0 modBadDataOffset
        "M").2.2 = Except.error ErrCode.InvalidInitializer ∧
    stackHasFrame
      (Interpreter.instantiate runF0 StoreManager.empty interp0 modBadDataOffset
        "M").2.1.stackMgr = true := by
  exact ⟨rfl, rfl⟩

end SSVM
